import Mathlib

/-!
Verification development for the `ocrd_tesserocr` repository
(three processors: `crop.py`, `deskew.py`, `segment_line.py`).

The Python sources are shallowly embedded below.  The OCR engine
(`tesserocr`), the workflow framework (`ocrd`, `ocrd_utils`,
`ocrd_models`) and the image library (PIL) are external: their outputs
(detected blocks, line boxes, orientation/script results, image sizes,
EXIF data) are inputs of the embedded functions, and the few tiny
external utility functions whose results the code manipulates
(`points_from_xywh`, `concat_padded`) are given as explicit definitions
of their documented behaviour.  Helper functions from the repository's
own `common.py` module (not part of the sources at hand) are modelled
from the spec where needed, and marked as such.

Numeric conventions: Python ints are `Int`; the few float values the
code branches on (`zoom`, confidences, angles) are modelled as exact
rationals `Rat`, with `NaN`-ness of engine confidences carried as an
explicit flag (the code only tests `math.isnan` and `< 10` on them).
`round` is Python's round-half-to-even, `int` truncates toward zero,
`%` on reals is Python's floored remainder.
-/

/-- Log levels of the Python `logging` module that the code uses. -/
inductive LogLevel
  | debug
  | info
  | warning
  | error
deriving DecidableEq, Repr

/-- Python `round` (banker's rounding, half to even) on an exact rational. -/
def pyRound (q : Rat) : Int :=
  let f : Int := Rat.floor q
  let r : Rat := q - (f : Rat)
  if r < 1/2 then f
  else if 1/2 < r then f + 1
  else if f % 2 = 0 then f else f + 1

/-- Python `int` on a real value: truncation toward zero. -/
def ratTrunc (q : Rat) : Int :=
  if 0 ≤ q then Rat.floor q else -(Rat.floor (-q))

/-- Python `%` on real values (floored remainder, result in `[0, b)` for `b > 0`). -/
def pyMod (a b : Rat) : Rat :=
  a - b * ((Rat.floor (a / b) : Int) : Rat)

/-- `"%04d"` formatting of a natural number (zero-padded to at least 4 digits). -/
def pad4 (n : Nat) : String :=
  if n < 10 then "000" ++ toString n
  else if n < 100 then "00" ++ toString n
  else if n < 1000 then "0" ++ toString n
  else toString n

/-- External `ocrd_utils.concat_padded`: joins a file group and a
zero-padded index. -/
def concat_padded (grp : String) (n : Nat) : String :=
  grp ++ "_" ++ pad4 n

/-- External `ocrd_utils.MIMETYPE_PAGE`. -/
def MIMETYPE_PAGE : String := "application/vnd.prima.page+xml"

/-! ## The PAGE document model

The externally defined page-description document, restricted to the
elements and attributes the three processors read or write. -/

/-- A `Coords` element: a polygon given by its points. -/
structure CoordsT where
  points : List (Int × Int)
deriving DecidableEq, Repr

/-- A `TextLine` element. -/
structure TextLineT where
  id : String
  coords : CoordsT
deriving DecidableEq, Repr

/-- An `AlternativeImage` element. -/
structure AltImageT where
  filename : String
  comments : String
deriving DecidableEq, Repr

/-- A text or table region (`TextRegionType` / `TableRegionType`):
identifier, coordinates, contained text lines, and the attributes the
deskew processor may set. -/
structure RegionT where
  id : String
  coords : CoordsT
  lines : List TextLineT
  orientation : Option Rat
  primaryScript : Option String
  readingDirection : Option String
  textLineOrder : Option String
  altImages : List AltImageT
deriving DecidableEq, Repr

/-- A `Border` element. -/
structure BorderT where
  coords : CoordsT
deriving DecidableEq, Repr

/-- The `Page` element: image reference, optional border, text and table
regions (separate child element lists in the PAGE schema), alternative
images, and the attributes the deskew processor may set. -/
structure PageT where
  imageFilename : String
  border : Option BorderT
  textRegions : List RegionT
  tableRegions : List RegionT
  altImages : List AltImageT
  orientation : Option Rat
  primaryScript : Option String
  readingDirection : Option String
  textLineOrder : Option String
deriving DecidableEq, Repr

/-- A `MetadataItem` element as added by the processors
(`type_="processingStep"`, tool name/value, parameter labels). -/
structure MetadataItemT where
  type_ : String
  name : String
  value : String
  labels : List (String × String)
deriving DecidableEq, Repr

/-- A `PcGts` document: metadata items plus the page. -/
structure PcgtsT where
  metadataItems : List MetadataItemT
  page : PageT
deriving DecidableEq, Repr

/-- A file added to the workspace via `workspace.add_file`; the
serialised XML content is represented by the document value itself
(`to_xml` is external serialisation). -/
structure WorkspaceFile where
  ID : String
  fileGrp : String
  pageId : Option String
  mimetype : String
  localFilename : String
  content : PcgtsT
deriving DecidableEq, Repr

/-- An image file written via `save_image_file`: its path and, for
cropped images, the crop box applied to the page image. -/
structure SavedImage where
  path : String
  cropBox : Option (Int × Int × Int × Int)
deriving DecidableEq, Repr

/-- Modelled from the spec: `ocrd_tesserocr.common.save_image_file`
(module not among the sources) saves an image under the given file
group and file id and returns its path — "the workflow file-group
naming convention for derived image outputs".  Claims depend only on
the returned path being referenced, not its shape. -/
def save_image_file (file_id : String) (file_grp : String) : String :=
  file_grp ++ "/" ++ file_id ++ ".png"

/-- Modelled from the spec: `ocrd_tesserocr.common.bbox_from_points`
(module not among the sources) — the bounding box of a points polygon,
"simple offset arithmetic" on coordinate tuples. -/
def bbox_from_points : List (Int × Int) → Int × Int × Int × Int
  | [] => (0, 0, 0, 0)
  | p :: ps =>
    ps.foldl (fun a q => (min a.1 q.1, min a.2.1 q.2, max a.2.2.1 q.1, max a.2.2.2 q.2))
      (p.1, p.2, p.1, p.2)

/-- Modelled from the spec: `ocrd_tesserocr.common.points_from_bbox`
(module not among the sources) — the four-corner polygon of a bounding
box. -/
def points_from_bbox (minx miny maxx maxy : Int) : List (Int × Int) :=
  [(minx, miny), (maxx, miny), (maxx, maxy), (minx, maxy)]

/-- Modelled from the spec: `ocrd_tesserocr.common.bbox_from_xywh`
(module not among the sources) — `x, y, w, h` to
`left, top, right, bottom`. -/
def bbox_from_xywh (x y w h : Int) : Int × Int × Int × Int :=
  (x, y, x + w, y + h)

/-- An `x/y/w/h` box as used by the engine wrapper and the `common`
image helpers. -/
structure XYWH where
  x : Int
  y : Int
  w : Int
  h : Int
deriving DecidableEq, Repr

/-- External `ocrd_utils.points_from_xywh`: the four corners of an
`x/y/w/h` box, in document order. -/
def points_from_xywh (b : XYWH) : List (Int × Int) :=
  [(b.x, b.y), (b.x + b.w, b.y), (b.x + b.w, b.y + b.h), (b.x, b.y + b.h)]

/-! ## Crop processor (`crop.py`) -/

/-- `OcrdExif` data of the page image: resolution and its unit. -/
structure OcrdExifT where
  xResolution : Int
  resolutionUnit : String
deriving DecidableEq, Repr

/-- The binarised bounding box of a block as `left, top, right, bottom`
(PIL `getbbox` order). -/
structure BinBbox where
  left : Int
  top : Int
  right : Int
  bottom : Int
deriving DecidableEq, Repr

/-- One component returned by `tessapi.GetComponentImages(RIL.BLOCK, True)`:
the block's `xywh` box, its index, the binarised block image's `getbbox()`
result (`none` when the binarisation is empty), and the block image's
size (PIL `image.width` / `image.height`). -/
structure CropBlock where
  x : Int
  y : Int
  w : Int
  h : Int
  index : Nat
  binBbox : Option BinBbox
  imgW : Int
  imgH : Int
deriving DecidableEq, Repr

/-- One input file of a crop run: its workspace identity, parsed PAGE
document, the page image's size and EXIF data, and the engine's detected
blocks for this page. -/
structure CropInput where
  ID : String
  pageId : Option String
  pcgts : PcgtsT
  imageW : Int
  imageH : Int
  info : OcrdExifT
  blocks : List CropBlock
deriving DecidableEq, Repr

/-- The crop processor's parameters. -/
structure CropParams where
  padding : Int
deriving DecidableEq, Repr

/-- Structured log events of `crop.process`, one constructor per `LOG.x`
call site. -/
inductive CropLog
  | inputFile (n : Nat) (pageId : String)
  | overwriteBorder (left top right bottom : Int)
  | ignoreTextRegions (minx maxx miny maxy : Int)
  | croppingDebug
  | detectedRegion (id : String) (left right top bottom : Int)
  | ignoreEmptyBin (id : String)
  | ignoreWidth (id : String) (width : Int)
  | ignoreHeight (id : String) (height : Int)
  | updatedBorder (minx maxx miny maxy : Int)
  | paddedBorder (minx maxx miny maxy : Int)
  | noValidExtent (pageId : String)
deriving DecidableEq, Repr

/-- The level each crop log event is emitted at in the source. -/
def cropLogLevel : CropLog → LogLevel
  | .inputFile _ _ => .info
  | .overwriteBorder _ _ _ _ => .warning
  | .ignoreTextRegions _ _ _ _ => .warning
  | .croppingDebug => .debug
  | .detectedRegion _ _ _ _ _ => .debug
  | .ignoreEmptyBin _ => .debug
  | .ignoreWidth _ _ => .debug
  | .ignoreHeight _ _ => .debug
  | .updatedBorder _ _ _ _ => .debug
  | .paddedBorder _ _ _ _ => .debug
  | .noValidExtent _ => .error

/-- `dpi` as computed from the EXIF data when a resolution is recorded:
dots-per-cm are converted by `round(dpi * 2.54)`. -/
def crop_dpi (info : OcrdExifT) : Int :=
  if info.resolutionUnit = "cm" then pyRound ((info.xResolution : Rat) * (254/100))
  else info.xResolution

/-- The `zoom` factor of `crop.process`: `300 / dpi` when the image
records a resolution (`xResolution != 1`), else `1`. -/
def crop_zoom (info : OcrdExifT) : Rat :=
  if info.xResolution ≠ 1 then (300 : Rat) / ((crop_dpi info : Int) : Rat)
  else 1

/-- The filter applied to each detected block (the `continue` chain of
the component loop): dropped when the binarisation is empty, when the
binarised width is `< 25 / zoom`, or when the binarised height is
`< 25 / zoom`. -/
def block_kept (zoom : Rat) (b : CropBlock) : Bool :=
  match b.binBbox with
  | none => false
  | some bb =>
    if ((bb.right - bb.left : Int) : Rat) < 25 / zoom then false
    else if ((bb.bottom - bb.top : Int) : Rat) < 25 / zoom then false
    else true

/-- State of the component loop in `crop.process`: the running extent,
the (function-scoped, hence run-persistent) binding of the Python
variable `image`, and the log events emitted so far. -/
structure CropLoopState where
  minX : Int
  minY : Int
  maxX : Int
  maxY : Int
  imageVar : Option (Int × Int)
  logs : List CropLog
deriving DecidableEq, Repr

/-- One iteration of the component loop of `crop.process`: bind `image`,
log the detected region, apply the filter, and update the running
extent. -/
def crop_block_step (zoom : Rat) (st : CropLoopState) (b : CropBlock) : CropLoopState :=
  let st1 := { st with imageVar := some (b.imgW, b.imgH) }
  let rid := "region" ++ pad4 b.index
  let (l, t, r, bo) := bbox_from_xywh b.x b.y b.w b.h
  let st2 := { st1 with logs := st1.logs ++ [CropLog.detectedRegion rid l r t bo] }
  match b.binBbox with
  | none => { st2 with logs := st2.logs ++ [CropLog.ignoreEmptyBin rid] }
  | some bb =>
    let width := bb.right - bb.left
    if (width : Rat) < 25 / zoom then
      { st2 with logs := st2.logs ++ [CropLog.ignoreWidth rid width] }
    else
      let height := bb.bottom - bb.top
      if (height : Rat) < 25 / zoom then
        { st2 with logs := st2.logs ++ [CropLog.ignoreHeight rid height] }
      else
        { st2 with
          minX := min st2.minX l, minY := min st2.minY t,
          maxX := max st2.maxX r, maxY := max st2.maxY bo,
          logs := st2.logs ++ [CropLog.updatedBorder (min st2.minX l) (max st2.maxX r)
                                 (min st2.minY t) (max st2.maxY bo)] }

/-- The whole component loop: fold over the engine's detected blocks
starting from the page image's extent inverted. -/
def crop_detect (zoom : Rat) (imageW imageH : Int) (imageVar : Option (Int × Int))
    (blocks : List CropBlock) : CropLoopState :=
  blocks.foldl (crop_block_step zoom)
    { minX := imageW, minY := imageH, maxX := 0, maxY := 0, imageVar := imageVar, logs := [] }

/-- The metadata item `crop.process` appends (`processingStep`, with one
label per parameter). -/
def crop_metadata_item (params : CropParams) : MetadataItemT :=
  { type_ := "processingStep"
    name := "preprocessing/optimization/cropping"
    value := "ocrd-tesserocr-crop"
    labels := [("padding", toString params.padding)] }

/-- Result of processing one input file in a crop run. -/
structure CropFileOutput where
  pcgtsOut : PcgtsT
  pageFile : WorkspaceFile
  savedImages : List SavedImage
  logs : List CropLog
deriving DecidableEq, Repr

/-- The `if regions:` branch of `crop.process`: with existing
`TextRegion` elements it reads `image.width` / `image.height`; the name
`image` is only ever bound inside the component loop, so if no earlier
block of the run bound it this raises `NameError`, otherwise the stale
block image's size seeds the extents of the ignored warning. -/
def crop_regions_check (regions : List RegionT) (imageVar : Option (Int × Int)) :
    Except String (List CropLog) :=
  if regions.isEmpty then Except.ok []
  else
    match imageVar with
    | none => Except.error "NameError: name image is not defined"
    | some iwh =>
      let ext := regions.foldl
        (fun (a : Int × Int × Int × Int) rg =>
          let (l, t, r, bo) := bbox_from_points rg.coords.points
          (min a.1 l, min a.2.1 t, max a.2.2.1 r, max a.2.2.2 bo))
        (iwh.1, iwh.2, 0, 0)
      Except.ok [CropLog.ignoreTextRegions ext.1 ext.2.2.1 ext.2.1 ext.2.2.2]

/-- The tail of `crop.process` for one file, after the component loop:
set the border and save the cropped image when a valid extent was found
(`min_x < max_x and min_y < max_y`), otherwise log an error; in both
cases serialise the document as a new workspace file. -/
def crop_finish (params : CropParams) (fileGrpIn fileGrpOut : String) (n : Nat)
    (inp : CropInput) (pcgts1 : PcgtsT) (logsPre : List CropLog)
    (stf : CropLoopState) : CropFileOutput :=
  let pageId := inp.pageId.getD inp.ID
  let (page2, saved, logsB) :=
    if stf.minX < stf.maxX ∧ stf.minY < stf.maxY then
      let mnx := max (stf.minX - params.padding) 0
      let mxx := min (stf.maxX + params.padding) inp.imageW
      let mny := max (stf.minY - params.padding) 0
      let mxy := min (stf.maxY + params.padding) inp.imageH
      let border : BorderT := { coords := { points := points_from_bbox mnx mny mxx mxy } }
      let fidImg0 := inp.ID.replace fileGrpIn "OCR-D-IMG-CROP"
      let fidImg := if fidImg0 = inp.ID then concat_padded "OCR-D-IMG-CROP" n else fidImg0
      let ipath := save_image_file fidImg "OCR-D-IMG-CROP"
      let page2 := { pcgts1.page with
        border := some border
        altImages := pcgts1.page.altImages ++ [{ filename := ipath, comments := "cropped" }] }
      (page2, [({ path := ipath, cropBox := some (mnx, mny, mxx, mxy) } : SavedImage)],
        [CropLog.paddedBorder mnx mxx mny mxy])
    else
      (pcgts1.page, [], [CropLog.noValidExtent pageId])
  let pcgts2 := { pcgts1 with page := page2 }
  let fidOut0 := inp.ID.replace fileGrpIn fileGrpOut
  let fidOut := if fidOut0 = inp.ID then concat_padded fileGrpOut n else fidOut0
  { pcgtsOut := pcgts2
    pageFile :=
      { ID := fidOut, fileGrp := fileGrpOut, pageId := inp.pageId,
        mimetype := MIMETYPE_PAGE,
        localFilename := fileGrpOut ++ "/" ++ fidOut ++ ".xml",
        content := pcgts2 }
    savedImages := saved
    logs := logsPre ++ stf.logs ++ logsB }

/-- Processing of one input file by `crop.process`: append the metadata
item, warn about an existing border, run the `regions` branch (which may
raise `NameError`), detect blocks, and finish.  The second component of
the result is the new binding of the Python variable `image`. -/
def crop_process_file (params : CropParams) (fileGrpIn fileGrpOut : String) (n : Nat)
    (imageVar : Option (Int × Int)) (inp : CropInput) :
    Except String (CropFileOutput × Option (Int × Int)) :=
  let pageId := inp.pageId.getD inp.ID
  let pcgts1 : PcgtsT :=
    { inp.pcgts with metadataItems := inp.pcgts.metadataItems ++ [crop_metadata_item params] }
  let logsB : List CropLog :=
    match pcgts1.page.border with
    | some bd =>
      let (l, t, r, bo) := bbox_from_points bd.coords.points
      [CropLog.overwriteBorder l t r bo]
    | none => []
  match crop_regions_check pcgts1.page.textRegions imageVar with
  | Except.error e => Except.error e
  | Except.ok logsR =>
    let zoom := crop_zoom inp.info
    let stf := crop_detect zoom inp.imageW inp.imageH imageVar inp.blocks
    Except.ok
      (crop_finish params fileGrpIn fileGrpOut n inp pcgts1
        ([CropLog.inputFile n pageId] ++ logsB ++ logsR ++ [CropLog.croppingDebug]) stf,
       stf.imageVar)

/-! ## Line segmentation processor (`segment_line.py`) -/

/-- The line segmentation processor's parameters. -/
structure SegLineParams where
  overwrite_lines : Bool
deriving DecidableEq, Repr

/-- Per-region environment of `segment_line.process`: the region
sub-image's offsets within the page (`region_xywh` from
`image_from_region`) and the engine's detected text line boxes for that
region image (`GetComponentImages(RIL.TEXTLINE, True, raw_image=True)`). -/
structure SegLineRegionData where
  offX : Int
  offY : Int
  lines : List XYWH
deriving Repr

/-- Structured log events of `segment_line.process`. -/
inductive SegLineLog
  | inputFile (n : Nat) (pageId : String)
  | removingLines (regionId : String)
  | keepingLines (regionId : String)
  | detectingLines (regionId : String)
deriving DecidableEq, Repr

/-- The level each line segmentation log event is emitted at. -/
def segLineLogLevel : SegLineLog → LogLevel
  | .inputFile _ _ => .info
  | .removingLines _ => .info
  | .keepingLines _ => .warning
  | .detectingLines _ => .debug

/-- The inner region loop body of `segment_line.process`: possibly clear
existing lines (per `overwrite_lines`), then add one `TextLine` per
detected line, its box translated by the region's offsets. -/
def segment_line_region (params : SegLineParams) (rdata : SegLineRegionData)
    (region : RegionT) : RegionT × List SegLineLog :=
  let (lines0, logs0) :=
    if region.lines ≠ [] then
      if params.overwrite_lines then (([] : List TextLineT), [SegLineLog.removingLines region.id])
      else (region.lines, [SegLineLog.keepingLines region.id])
    else (region.lines, [])
  let newLines := rdata.lines.enum.map (fun p =>
    let lb : XYWH := { p.2 with x := p.2.x + rdata.offX, y := p.2.y + rdata.offY }
    ({ id := region.id ++ "_line" ++ pad4 p.1
       coords := { points := points_from_xywh lb } } : TextLineT))
  ({ region with lines := lines0 ++ newLines },
   logs0 ++ [SegLineLog.detectingLines region.id])

/-- One input file of a line segmentation run: workspace identity,
parsed PAGE document, the page image's `dpi` info, and the per-region
environment (indexed over `page.get_TextRegion()`). -/
structure SegLineInput where
  ID : String
  pageId : Option String
  pcgts : PcgtsT
  dpi : Int
  regionData : Nat → SegLineRegionData

/-- The metadata item `segment_line.process` appends. -/
def segment_line_metadata_item (params : SegLineParams) : MetadataItemT :=
  { type_ := "processingStep"
    name := "layout/segmentation/line"
    value := "ocrd-tesserocr-segment-line"
    labels := [("overwrite_lines", toString params.overwrite_lines)] }

/-- Result of processing one input file by `segment_line.process`. -/
structure SegLineFileOutput where
  pcgtsOut : PcgtsT
  pageFile : WorkspaceFile
  logs : List SegLineLog

/-- Processing of one input file by `segment_line.process`: append the
metadata item, run the region loop over `page.get_TextRegion()`, and
serialise the document as a new workspace file.  No failure paths. -/
def segment_line_process_file (params : SegLineParams) (fileGrpIn fileGrpOut : String)
    (n : Nat) (inp : SegLineInput) : SegLineFileOutput :=
  let pageId := inp.pageId.getD inp.ID
  let pcgts1 : PcgtsT :=
    { inp.pcgts with
      metadataItems := inp.pcgts.metadataItems ++ [segment_line_metadata_item params] }
  let results := pcgts1.page.textRegions.enum.map
    (fun p => segment_line_region params (inp.regionData p.1) p.2)
  let page2 := { pcgts1.page with textRegions := results.map Prod.fst }
  let pcgts2 := { pcgts1 with page := page2 }
  let fidOut0 := inp.ID.replace fileGrpIn fileGrpOut
  let fidOut := if fidOut0 = inp.ID then concat_padded fileGrpOut n else fidOut0
  { pcgtsOut := pcgts2
    pageFile :=
      { ID := fidOut, fileGrp := fileGrpOut, pageId := inp.pageId,
        mimetype := MIMETYPE_PAGE,
        localFilename := fileGrpOut ++ "/" ++ fidOut ++ ".xml",
        content := pcgts2 }
    logs := [SegLineLog.inputFile n pageId] ++
      (results.map Prod.snd).foldl (· ++ ·) [] }

/-! ## Deskew processor (`deskew.py`) -/

/-- A float confidence value as reported by the engine: its value as an
exact rational, plus whether it is `NaN` (the code only applies
`math.isnan` and `< 10` to it; a `NaN` compares false). -/
structure PyFloat where
  isNan : Bool
  val : Rat
deriving DecidableEq, Repr

/-- The result of `tessapi.DetectOrientationScript()` when not `None`. -/
structure OSResult where
  orient_deg : Int
  orient_conf : PyFloat
  script_name : String
  script_conf : PyFloat
deriving DecidableEq, Repr

/-- The `tesserocr.Orientation` enum. -/
inductive TOrientation
  | pageUp
  | pageRight
  | pageDown
  | pageLeft
deriving DecidableEq, Repr

/-- The `tesserocr.WritingDirection` enum (exactly these members). -/
inductive TWritingDirection
  | leftToRight
  | rightToLeft
  | topToBottom
deriving DecidableEq, Repr

/-- The `tesserocr.TextlineOrder` enum (exactly these members). -/
inductive TTextlineOrder
  | leftToRight
  | rightToLeft
  | topToBottom
deriving DecidableEq, Repr

/-- The result of `tessapi.AnalyseLayout().Orientation()` when layout
analysis returned a result.  `deskew_deg` is the deskew angle already
converted to degrees (the source converts the engine's radians by
multiplying with `-180 / math.pi`; no claim concerns that real-number
conversion, so the converted value is taken as the engine datum). -/
structure TessLayout where
  orientation : TOrientation
  writing_direction : TWritingDirection
  textline_order : TTextlineOrder
  deskew_deg : Rat
deriving DecidableEq, Repr

/-- The engine results for one segment (page or region): OSD and layout
analysis, each possibly absent. -/
structure SegEngine where
  osr : Option OSResult
  layout : Option TessLayout
deriving DecidableEq, Repr

/-- The kind of segment `_process_segment` is applied to
(`isinstance(segment, PageType)` / `TextRegionType` checks). -/
inductive SegKind
  | pageK
  | textK
  | tableK
deriving DecidableEq, Repr

/-- `isinstance(segment, (TextRegionType, PageType))`. -/
def is_text_or_page : SegKind → Bool
  | .pageK => true
  | .textK => true
  | .tableK => false

/-- The attributes of a segment that `_process_segment` reads or writes,
together with its kind (a view of either the page or a region). -/
structure SegView where
  kind : SegKind
  orientation : Option Rat
  primaryScript : Option String
  readingDirection : Option String
  textLineOrder : Option String
  altImages : List AltImageT
deriving DecidableEq, Repr

/-- The script-name mapping of `_process_segment` (`dict.get` with
default `"Latn - Latin"`). -/
def script_map (name : String) : String :=
  match name with
  | "Arabic" => "Arab - Arabic"
  | "Armenian" => "Armn - Armenian"
  | "Bengali" => "Armn - Armenian"
  | "Canadian_Aboriginal" => "Cans - Unified Canadian Aboriginal Syllabics"
  | "Cherokee" => "Cher - Cherokee"
  | "Common" => "Latn - Latin"
  | "Cyrillic" => "Cyrl - Cyrillic"
  | "Devanagari" => "Deva - Devanagari (Nagari)"
  | "Ethiopic" => "Ethi - Ethiopic"
  | "Fraktur" => "Latf - Latin (Fraktur variant)"
  | "Georgian" => "Geor - Georgian (Mkhedruli)"
  | "Greek" => "Grek - Greek"
  | "Gujarati" => "Gujr - Gujarati"
  | "Gurmukhi" => "Guru - Gurmukhi"
  | "Han" => "Hant - Han (Traditional variant)"
  | "Hangul" => "Hang - Hangul"
  | "Hangul_vert" => "Hang - Hangul"
  | "HanS" => "Hans - Han (Simplified variant)"
  | "HanS_vert" => "Hans - Han (Simplified variant)"
  | "HanT" => "Hant - Han (Traditional variant)"
  | "HanT_vert" => "Hant - Han (Traditional variant)"
  | "Hebrew" => "Hebr - Hebrew"
  | "Hiragana" => "Jpan - Japanese"
  | "Japanese" => "Jpan - Japanese"
  | "Japanese_vert" => "Jpan - Japanese"
  | "Kannada" => "Knda - Kannada"
  | "Katakana" => "Jpan - Japanese"
  | "Khmer" => "Khmr - Khmer"
  | "Lao" => "Laoo - Lao"
  | "Latin" => "Latn - Latin"
  | "Malayalam" => "Mlym - Malayalam"
  | "Myanmar" => "Mymr - Myanmar (Burmese)"
  | "Oriya" => "Orya - Oriya"
  | "Sinhala" => "Sinh - Sinhala"
  | "Syriac" => "Syrc - Syriac"
  | "Tamil" => "Taml - Tamil"
  | "Telugu" => "Telu - Telugu"
  | "Thaana" => "Thaa - Thaana"
  | "Thai" => "Thai - Thai"
  | "Tibetan" => "Tibt - Tibetan"
  | "Vietnamese" => "Tavt - Tai Viet"
  | _ => "Latn - Latin"

/-- The `readingDirection` mapping (all enum members are covered, so
the `dict.get` default `"bottom-to-top"` is unreachable). -/
def wd_map : TWritingDirection → String
  | .leftToRight => "left-to-right"
  | .rightToLeft => "right-to-left"
  | .topToBottom => "top-to-bottom"

/-- The `textLineOrder` mapping (all enum members are covered, so the
`dict.get` default `"bottom-to-top"` is unreachable). -/
def tlo_map : TTextlineOrder → String
  | .leftToRight => "left-to-right"
  | .rightToLeft => "right-to-left"
  | .topToBottom => "top-to-bottom"

/-- The clockwise-rotation angle derived from the layout orientation
enum (`dict.get` with default `0`). -/
def orientation_angle : TOrientation → Rat
  | .pageRight => 270
  | .pageDown => 180
  | .pageLeft => 90
  | .pageUp => 0

/-- Structured log events of `TesserocrDeskew._process_segment`. -/
inductive DeskewLog
  | ignoringOrientation (deg : Int)
  | applyingOrientation (deg : Int)
  | ignoringScript (name : String)
  | applyingScript (name : String)
  | noOsdResult
  | orientationInfo
  | inconsistentAngles (angle2 angle : Rat)
  | aboutToRotate
deriving DecidableEq, Repr

/-- The level each deskew segment log event is emitted at. -/
def deskewLogLevel : DeskewLog → LogLevel
  | .ignoringOrientation _ => .info
  | .applyingOrientation _ => .info
  | .ignoringScript _ => .info
  | .applyingScript _ => .info
  | .noOsdResult => .warning
  | .orientationInfo => .info
  | .inconsistentAngles _ _ => .warning
  | .aboutToRotate => .debug

/-- The initial `comments` value of `_process_segment`: empty only for a
page whose sub-image offsets are both zero, else `"cropped"`. -/
def deskew_initial_comments (kind : SegKind) (xywh : XYWH) : String :=
  if kind = SegKind.pageK ∧ xywh.x = 0 ∧ xywh.y = 0 then "" else "cropped"

/-- The orientation/script stage of `_process_segment` (the
`DetectOrientationScript` branch).  Returns the updated angle, comments,
segment view and logs, or fails on the `assert not math.isnan(...)`
statements. -/
def deskew_osd_stage (seg : SegView) (comments : String) (osrOpt : Option OSResult) :
    Except String (Rat × String × SegView × List DeskewLog) :=
  match osrOpt with
  | none => Except.ok (0, comments, seg, [DeskewLog.noOsdResult])
  | some osr =>
    if osr.orient_conf.isNan then
      Except.error "AssertionError: orientation detection failed"
    else
      let (angle, comments, lg1) :=
        if osr.orient_conf.val < 10 then
          ((0 : Rat), comments, [DeskewLog.ignoringOrientation osr.orient_deg])
        else
          ((osr.orient_deg : Rat),
           if osr.orient_deg ≠ 0 then comments ++ ",rotated-" ++ toString osr.orient_deg
           else comments,
           [DeskewLog.applyingOrientation osr.orient_deg])
      if osr.script_conf.isNan then
        Except.error "AssertionError: script detection failed"
      else
        let (seg, lg2) :=
          if osr.script_conf.val < 10 then
            (seg, [DeskewLog.ignoringScript osr.script_name])
          else
            (if is_text_or_page seg.kind then
               { seg with primaryScript := some (script_map osr.script_name) }
             else seg,
             [DeskewLog.applyingScript osr.script_name])
        Except.ok (angle, comments, seg, lg1 ++ lg2)

/-- The layout-analysis stage of `_process_segment` (the
`AnalyseLayout` branch): annotate `,deskewed`, warn on inconsistent
angles, set `orientation` when the total angle is nonzero, and set
`readingDirection` / `textLineOrder` on text regions and pages. -/
def deskew_layout_stage (seg : SegView) (comments : String) (angle : Rat)
    (layoutOpt : Option TessLayout) : String × SegView × List DeskewLog :=
  match layoutOpt with
  | none => (comments, seg, [])
  | some ly =>
    let deskew := ly.deskew_deg
    let comments := if ratTrunc deskew ≠ 0 then comments ++ ",deskewed" else comments
    let angle2 := orientation_angle ly.orientation
    let lgW := [DeskewLog.orientationInfo] ++
      (if angle2 ≠ angle then [DeskewLog.inconsistentAngles angle2 angle] else [])
    let angle := angle + deskew
    let (seg, lgR) :=
      if angle ≠ 0 then
        ({ seg with orientation := some (180 - pyMod (180 - angle) 360) },
         [DeskewLog.aboutToRotate])
      else (seg, [])
    let seg :=
      if is_text_or_page seg.kind then
        { seg with
          readingDirection := some (wd_map ly.writing_direction)
          textLineOrder := some (tlo_map ly.textline_order) }
      else seg
    (comments, seg, lgW ++ lgR)

/-- `TesserocrDeskew._process_segment`: orientation/script detection
(with its assertions), layout analysis, then unconditionally save the
(possibly rotated) segment image and append an `AlternativeImage`
referencing it, with the accumulated `comments`. -/
def deskew_process_segment (seg : SegView) (xywh : XYWH) (eng : SegEngine)
    (file_id : String) : Except String (SegView × List DeskewLog) :=
  let comments := deskew_initial_comments seg.kind xywh
  match deskew_osd_stage seg comments eng.osr with
  | Except.error e => Except.error e
  | Except.ok (angle, comments, seg, lg1) =>
    let (comments, seg, lg2) := deskew_layout_stage seg comments angle eng.layout
    let path := save_image_file file_id "OCR-D-IMG-DESKEW"
    Except.ok
      ({ seg with altImages := seg.altImages ++ [{ filename := path, comments := comments }] },
       lg1 ++ lg2)

/-- View of the page as a segment for `_process_segment`. -/
def page_view (p : PageT) : SegView :=
  { kind := SegKind.pageK
    orientation := p.orientation
    primaryScript := p.primaryScript
    readingDirection := p.readingDirection
    textLineOrder := p.textLineOrder
    altImages := p.altImages }

/-- Write a processed segment view back into the page. -/
def set_page_view (p : PageT) (v : SegView) : PageT :=
  { p with
    orientation := v.orientation
    primaryScript := v.primaryScript
    readingDirection := v.readingDirection
    textLineOrder := v.textLineOrder
    altImages := v.altImages }

/-- View of a region (text or table) as a segment for
`_process_segment`. -/
def region_view (k : SegKind) (r : RegionT) : SegView :=
  { kind := k
    orientation := r.orientation
    primaryScript := r.primaryScript
    readingDirection := r.readingDirection
    textLineOrder := r.textLineOrder
    altImages := r.altImages }

/-- Write a processed segment view back into a region. -/
def set_region_view (r : RegionT) (v : SegView) : RegionT :=
  { r with
    orientation := v.orientation
    primaryScript := v.primaryScript
    readingDirection := v.readingDirection
    textLineOrder := v.textLineOrder
    altImages := v.altImages }

/-- The deskew processor's parameters. -/
structure DeskewParams where
  operation_level : String
deriving DecidableEq, Repr

/-- One input file of a deskew run: workspace identity, parsed PAGE
document, EXIF data, the page sub-image offsets (`image_from_page`), and
per-segment engine results — `regionXYWH` / `regionEngine` are indexed
over the concatenation `page.get_TextRegion() + page.get_TableRegion()`. -/
structure DeskewInput where
  ID : String
  pageId : Option String
  pcgts : PcgtsT
  info : OcrdExifT
  pageXYWH : XYWH
  pageEngine : SegEngine
  regionXYWH : Nat → XYWH
  regionEngine : Nat → SegEngine

/-- The metadata item `deskew.process` appends. -/
def deskew_metadata_item (params : DeskewParams) : MetadataItemT :=
  { type_ := "processingStep"
    name := "preprocessing/optimization/deskewing"
    value := "ocrd-tesserocr-deskew"
    labels := [("operation_level", params.operation_level)] }

/-- The region loop of `deskew.process` over one region list: process
each region via `_process_segment` (aborting the run on an assertion),
with engine data indexed from `i0` and image file ids suffixed by the
region id. -/
def deskew_region_list (k : SegKind) (xy : Nat → XYWH) (en : Nat → SegEngine)
    (file_id : String) (i0 : Nat) :
    List RegionT → Except String (List RegionT × List DeskewLog)
  | [] => Except.ok ([], [])
  | r :: rs =>
    match deskew_process_segment (region_view k r) (xy i0) (en i0) (file_id ++ "_" ++ r.id) with
    | Except.error e => Except.error e
    | Except.ok (v, lg) =>
      match deskew_region_list k xy en file_id (i0 + 1) rs with
      | Except.error e => Except.error e
      | Except.ok (rs2, lg2) => Except.ok (set_region_view r v :: rs2, lg ++ lg2)

/-- Result of processing one input file by `deskew.process`. -/
structure DeskewFileOutput where
  pcgtsOut : PcgtsT
  pageFile : WorkspaceFile
  logs : List DeskewLog

/-- Processing of one input file by `deskew.process`: append the
metadata item, then either process the page segment (operation level
`"page"`) or every text and table region, and serialise the document as
a new workspace file.  Assertion failures propagate. -/
def deskew_process_file (params : DeskewParams) (fileGrpIn fileGrpOut : String)
    (n : Nat) (inp : DeskewInput) : Except String DeskewFileOutput :=
  let fidImg := inp.ID.replace fileGrpIn "OCR-D-IMG-DESKEW"
  let pcgts1 : PcgtsT :=
    { inp.pcgts with
      metadataItems := inp.pcgts.metadataItems ++ [deskew_metadata_item params] }
  let pageRes : Except String (PageT × List DeskewLog) :=
    if params.operation_level = "page" then
      match deskew_process_segment (page_view pcgts1.page) inp.pageXYWH inp.pageEngine fidImg with
      | Except.error e => Except.error e
      | Except.ok (v, lg) => Except.ok (set_page_view pcgts1.page v, lg)
    else
      match deskew_region_list SegKind.textK inp.regionXYWH inp.regionEngine fidImg 0
              pcgts1.page.textRegions with
      | Except.error e => Except.error e
      | Except.ok (trs, lg1) =>
        match deskew_region_list SegKind.tableK inp.regionXYWH inp.regionEngine fidImg
                pcgts1.page.textRegions.length pcgts1.page.tableRegions with
        | Except.error e => Except.error e
        | Except.ok (tbs, lg2) =>
          Except.ok ({ pcgts1.page with textRegions := trs, tableRegions := tbs }, lg1 ++ lg2)
  match pageRes with
  | Except.error e => Except.error e
  | Except.ok (page2, lgs) =>
    let pcgts2 := { pcgts1 with page := page2 }
    let fidOut0 := inp.ID.replace fileGrpIn fileGrpOut
    let fidOut := if fidOut0 = inp.ID then concat_padded fileGrpOut n else fidOut0
    Except.ok
      { pcgtsOut := pcgts2
        pageFile :=
          { ID := fidOut, fileGrp := fileGrpOut, pageId := inp.pageId,
            mimetype := MIMETYPE_PAGE,
            localFilename := fileGrpOut ++ "/" ++ fidOut ++ ".xml",
            content := pcgts2 }
        logs := lgs }

/-! ## Run structure

Each `process` method opens one engine instance in a `with` block and
iterates over the input files inside it; an unhandled exception in a
file aborts the loop (later files are not processed), but the `with`
block still closes the instance.  A generic runner captures this shape
for all three processors. -/

/-- Events of a processor run: opening/closing of the engine instance
and the start of each input file's processing. -/
inductive RunEvent
  | openApi
  | fileStart (n : Nat)
  | closeApi
deriving DecidableEq, Repr

/-- The file loop shared by the three `process` methods: handle the
files in order, threading a state, stopping at the first unhandled
exception.  Returns the per-file outputs, the file events, and the
exception if any. -/
def proc_loop {σ ω : Type} (step : Nat → σ → Except String (ω × σ)) :
    Nat → σ → Nat → List ω × List RunEvent × Option String
  | _, _, 0 => ([], [], none)
  | n, s, Nat.succ k =>
    match step n s with
    | Except.error e => ([], [RunEvent.fileStart n], some e)
    | Except.ok (out, s2) =>
      match proc_loop step (n + 1) s2 k with
      | (outs, tr, ab) => (out :: outs, RunEvent.fileStart n :: tr, ab)

/-- A whole run: open the engine instance, run the file loop inside its
scope, close the instance (also on abort, by `with` semantics). -/
def proc_run {σ ω : Type} (step : Nat → σ → Except String (ω × σ)) (s0 : σ)
    (numFiles : Nat) : List ω × List RunEvent × Option String :=
  match proc_loop step 0 s0 numFiles with
  | (outs, tr, ab) => (outs, RunEvent.openApi :: tr ++ [RunEvent.closeApi], ab)

/-- The per-file step of a crop run (state: the binding of the Python
variable `image`). -/
def crop_step (params : CropParams) (fileGrpIn fileGrpOut : String)
    (files : List CropInput) (n : Nat) (s : Option (Int × Int)) :
    Except String (CropFileOutput × Option (Int × Int)) :=
  match files[n]? with
  | none => Except.error "IndexError"
  | some inp => crop_process_file params fileGrpIn fileGrpOut n s inp

/-- A crop run over a list of input files. -/
def crop_run (params : CropParams) (fileGrpIn fileGrpOut : String)
    (files : List CropInput) : List CropFileOutput × List RunEvent × Option String :=
  proc_run (crop_step params fileGrpIn fileGrpOut files) none files.length

/-- The per-file step of a line segmentation run (no state, no failure
paths). -/
def segment_line_step (params : SegLineParams) (fileGrpIn fileGrpOut : String)
    (files : List SegLineInput) (n : Nat) (_ : Unit) :
    Except String (SegLineFileOutput × Unit) :=
  match files[n]? with
  | none => Except.error "IndexError"
  | some inp => Except.ok (segment_line_process_file params fileGrpIn fileGrpOut n inp, ())

/-- A line segmentation run over a list of input files. -/
def segment_line_run (params : SegLineParams) (fileGrpIn fileGrpOut : String)
    (files : List SegLineInput) : List SegLineFileOutput × List RunEvent × Option String :=
  proc_run (segment_line_step params fileGrpIn fileGrpOut files) () files.length

/-- The per-file step of a deskew run (no state; assertion failures
abort). -/
def deskew_step (params : DeskewParams) (fileGrpIn fileGrpOut : String)
    (files : List DeskewInput) (n : Nat) (_ : Unit) :
    Except String (DeskewFileOutput × Unit) :=
  match files[n]? with
  | none => Except.error "IndexError"
  | some inp =>
    match deskew_process_file params fileGrpIn fileGrpOut n inp with
    | Except.error e => Except.error e
    | Except.ok out => Except.ok (out, ())

/-- A deskew run over a list of input files. -/
def deskew_run (params : DeskewParams) (fileGrpIn fileGrpOut : String)
    (files : List DeskewInput) : List DeskewFileOutput × List RunEvent × Option String :=
  proc_run (deskew_step params fileGrpIn fileGrpOut files) () files.length

/-! ## Concrete instances used by witnesses and counterexamples -/

/-- An empty page. -/
def cPage0 : PageT :=
  { imageFilename := "img.png", border := none, textRegions := [], tableRegions := [],
    altImages := [], orientation := none, primaryScript := none,
    readingDirection := none, textLineOrder := none }

/-- A crop input with no detected blocks and no pre-existing regions. -/
def cInpEmpty : CropInput :=
  { ID := "GRPA_0001", pageId := some "p1",
    pcgts := { metadataItems := [], page := cPage0 },
    imageW := 100, imageH := 100,
    info := { xResolution := 1, resolutionUnit := "inch" },
    blocks := [] }

/-- A large detected block whose binarisation passes the size filter. -/
def cBlockBig : CropBlock :=
  { x := 10, y := 10, w := 50, h := 40, index := 0,
    binBbox := some { left := 0, top := 0, right := 30, bottom := 30 },
    imgW := 50, imgH := 40 }

/-- A crop input with one good block and no pre-existing regions. -/
def cInpBlockOnly : CropInput :=
  { ID := "GRPA_0001", pageId := some "p1",
    pcgts := { metadataItems := [], page := cPage0 },
    imageW := 200, imageH := 100,
    info := { xResolution := 1, resolutionUnit := "inch" },
    blocks := [cBlockBig] }

/-- A pre-existing border element. -/
def cBorder0 : BorderT := { coords := { points := [(1, 1), (199, 1), (199, 99), (1, 99)] } }

/-- A crop input whose page already carries a border, plus one good
block. -/
def cInpBorder : CropInput :=
  { cInpBlockOnly with pcgts := { metadataItems := [], page := { cPage0 with border := some cBorder0 } } }

/-- A pre-existing text region. -/
def cRegion0 : RegionT :=
  { id := "r1", coords := { points := [(2, 2), (50, 2), (50, 50), (2, 50)] },
    lines := [], orientation := none, primaryScript := none,
    readingDirection := none, textLineOrder := none, altImages := [] }

/-- A crop input whose page already contains a text region. -/
def cInpRegion : CropInput :=
  { cInpBlockOnly with pcgts := { metadataItems := [], page := { cPage0 with textRegions := [cRegion0] } } }

/-- A text-region segment view with no prior annotations. -/
def dView0 : SegView :=
  { kind := SegKind.textK, orientation := none, primaryScript := none,
    readingDirection := none, textLineOrder := none, altImages := [] }

/-- Engine results whose orientation confidence is `NaN`. -/
def dEngNan : SegEngine :=
  { osr := some { orient_deg := 0, orient_conf := { isNan := true, val := 0 },
                  script_name := "Latin", script_conf := { isNan := false, val := 20 } },
    layout := none }

/-- Engine results with well-defined confidences. -/
def dEngOk : SegEngine :=
  { osr := some { orient_deg := 90, orient_conf := { isNan := false, val := 20 },
                  script_name := "Latin", script_conf := { isNan := false, val := 20 } },
    layout := none }

/-- A detected block whose binarisation is empty (it still binds the
Python variable `image`). -/
def cBlockNoBin : CropBlock :=
  { x := 10, y := 10, w := 50, h := 40, index := 0, binBbox := none, imgW := 50, imgH := 40 }

/-- A crop input with one empty-binarisation block and no regions. -/
def cInp8a : CropInput :=
  { ID := "GRPA_0001", pageId := some "p1",
    pcgts := { metadataItems := [], page := cPage0 },
    imageW := 200, imageH := 100,
    info := { xResolution := 1, resolutionUnit := "inch" },
    blocks := [cBlockNoBin] }

/-- A crop input whose page contains a text region and which reports no
blocks. -/
def cInp8b : CropInput :=
  { ID := "GRPA_0002", pageId := some "p2",
    pcgts := { metadataItems := [], page := { cPage0 with textRegions := [cRegion0] } },
    imageW := 200, imageH := 100,
    info := { xResolution := 1, resolutionUnit := "inch" },
    blocks := [] }

/-- A pre-existing text line. -/
def cLine0 : TextLineT := { id := "r1_old", coords := { points := [(3, 3), (4, 3), (4, 4), (3, 4)] } }

/-- A region already carrying a text line. -/
def sRegion1 : RegionT := { cRegion0 with lines := [cLine0] }

/-- A line segmentation input whose page has one region with an
existing line and whose engine detects nothing. -/
def sInp3 : SegLineInput :=
  { ID := "GRPA_0001", pageId := some "p1",
    pcgts := { metadataItems := [], page := { cPage0 with textRegions := [sRegion1] } },
    dpi := 0, regionData := fun _ => { offX := 0, offY := 0, lines := [] } }

/-- A deskew input with no regions. -/
def dInp0 : DeskewInput :=
  { ID := "GRPA_0001", pageId := some "p1",
    pcgts := { metadataItems := [], page := cPage0 },
    info := { xResolution := 1, resolutionUnit := "inch" },
    pageXYWH := ⟨0, 0, 100, 100⟩,
    pageEngine := dEngOk,
    regionXYWH := fun _ => ⟨0, 0, 10, 10⟩,
    regionEngine := fun _ => dEngOk }

/-! ## Theorems -/

/-- Helper: the file loop continues after a successfully processed
file. -/
theorem proc_loop_ok_cons {σ ω : Type} (step : Nat → σ → Except String (ω × σ))
    (n : Nat) (s : σ) (k : Nat) (out : ω) (s2 : σ)
    (h : step n s = Except.ok (out, s2)) :
    proc_loop step n s (k + 1) =
      (out :: (proc_loop step (n + 1) s2 k).1,
       RunEvent.fileStart n :: (proc_loop step (n + 1) s2 k).2.1,
       (proc_loop step (n + 1) s2 k).2.2) := by
  simp [proc_loop, h]

/-- Helper: the file loop stops at a file whose processing raises. -/
theorem proc_loop_error_stops {σ ω : Type} (step : Nat → σ → Except String (ω × σ))
    (n : Nat) (s : σ) (k : Nat) (e : String)
    (h : step n s = Except.error e) :
    proc_loop step n s (k + 1) = ([], [RunEvent.fileStart n], some e) := by
  simp [proc_loop, h]

/-- **C5**: a detected block with non-empty binarisation contributes to
the page border extent (the running min/max get folded with its
`bbox_from_xywh` box) if and only if the width and the height of its
binarised bounding box are each at least `25 / zoom`; `zoom` is
`300 / dpi` when a resolution is recorded (dots-per-cm converted by
multiplying with 2.54 and rounding) and `1` otherwise; blocks below the
threshold in either dimension leave the extent unchanged. -/
theorem crop_block_threshold_iff (zoom : Rat) (st : CropLoopState) (b : CropBlock)
    (info : OcrdExifT) :
    (block_kept zoom b = true ↔
      ∃ bb, b.binBbox = some bb ∧
        25 / zoom ≤ ((bb.right - bb.left : Int) : Rat) ∧
        25 / zoom ≤ ((bb.bottom - bb.top : Int) : Rat)) ∧
    ((crop_block_step zoom st b).minX,
     (crop_block_step zoom st b).minY,
     (crop_block_step zoom st b).maxX,
     (crop_block_step zoom st b).maxY) =
      (if block_kept zoom b then
        (min st.minX b.x, min st.minY b.y, max st.maxX (b.x + b.w), max st.maxY (b.y + b.h))
       else (st.minX, st.minY, st.maxX, st.maxY)) ∧
    crop_zoom info =
      (if info.xResolution ≠ 1 then
        (300 : Rat) / (((if info.resolutionUnit = "cm"
          then pyRound ((info.xResolution : Rat) * (254/100))
          else info.xResolution) : Int) : Rat)
       else 1) := by
  refine ⟨?_, ?_, ?_⟩
  · cases hb : b.binBbox with
    | none => simp [block_kept, hb]
    | some bb =>
      by_cases h1 : ((bb.right - bb.left : Int) : Rat) < 25 / zoom
      · simp only [block_kept, hb, if_pos h1]
        constructor
        · intro h; exact absurd h (by simp)
        · rintro ⟨bb2, hbb2, hw, hh⟩
          cases hbb2
          exact absurd hw (not_le.mpr h1)
      · by_cases h2 : ((bb.bottom - bb.top : Int) : Rat) < 25 / zoom
        · simp only [block_kept, hb, if_neg h1, if_pos h2]
          constructor
          · intro h; exact absurd h (by simp)
          · rintro ⟨bb2, hbb2, hw, hh⟩
            cases hbb2
            exact absurd hh (not_le.mpr h2)
        · simp only [block_kept, hb, if_neg h1, if_neg h2]
          constructor
          · intro h
            exact ⟨bb, rfl, not_lt.mp h1, not_lt.mp h2⟩
          · intro h
            trivial
  · cases hb : b.binBbox with
    | none => simp [block_kept, crop_block_step, hb, bbox_from_xywh]
    | some bb =>
      simp only [crop_block_step, block_kept, hb, bbox_from_xywh]
      split
      · rfl
      · split
        · rfl
        · rfl
  · by_cases hr : info.xResolution ≠ 1
    · by_cases hu : info.resolutionUnit = "cm"
      · simp [crop_zoom, crop_dpi, hr, hu]
      · simp [crop_zoom, crop_dpi, hr, hu]
    · simp [crop_zoom, hr]

/-- **C6 counterexample**: a block whose binarisation is empty is indeed
skipped (the extent is unchanged), but the skip is reported at *debug*
level — no warning-level event is emitted at all, contradicting the
claim that the skip is reported at warning level. -/
theorem crop_empty_bin_no_warning :
    ((crop_block_step 1
        { minX := 100, minY := 90, maxX := 0, maxY := 0, imageVar := none, logs := [] }
        { x := 0, y := 0, w := 10, h := 10, index := 3, binBbox := none,
          imgW := 8, imgH := 8 }).minX = 100 ∧
     (crop_block_step 1
        { minX := 100, minY := 90, maxX := 0, maxY := 0, imageVar := none, logs := [] }
        { x := 0, y := 0, w := 10, h := 10, index := 3, binBbox := none,
          imgW := 8, imgH := 8 }).maxX = 0) ∧
    (crop_block_step 1
        { minX := 100, minY := 90, maxX := 0, maxY := 0, imageVar := none, logs := [] }
        { x := 0, y := 0, w := 10, h := 10, index := 3, binBbox := none,
          imgW := 8, imgH := 8 }).logs =
      [CropLog.detectedRegion "region0003" 0 10 0 10, CropLog.ignoreEmptyBin "region0003"] ∧
    ¬ ∃ e ∈ (crop_block_step 1
        { minX := 100, minY := 90, maxX := 0, maxY := 0, imageVar := none, logs := [] }
        { x := 0, y := 0, w := 10, h := 10, index := 3, binBbox := none,
          imgW := 8, imgH := 8 }).logs, cropLogLevel e = LogLevel.warning := by
  decide

/-- **C6 (amended)**: a block whose binarisation is empty is skipped
with a *debug*-level message: it leaves the running extent unchanged,
the skip event is emitted at debug level, and the loop continues with
the remaining blocks. -/
theorem crop_empty_bin_skipped_debug (zoom : Rat) (st : CropLoopState) (b : CropBlock)
    (rest : List CropBlock) (hb : b.binBbox = none) :
    (crop_block_step zoom st b).minX = st.minX ∧
    (crop_block_step zoom st b).minY = st.minY ∧
    (crop_block_step zoom st b).maxX = st.maxX ∧
    (crop_block_step zoom st b).maxY = st.maxY ∧
    (crop_block_step zoom st b).logs =
      st.logs ++ [CropLog.detectedRegion ("region" ++ pad4 b.index) b.x (b.x + b.w) b.y (b.y + b.h),
                  CropLog.ignoreEmptyBin ("region" ++ pad4 b.index)] ∧
    cropLogLevel (CropLog.ignoreEmptyBin ("region" ++ pad4 b.index)) = LogLevel.debug ∧
    (b :: rest).foldl (crop_block_step zoom) st =
      rest.foldl (crop_block_step zoom) (crop_block_step zoom st b) := by
  refine ⟨?_, ?_, ?_, ?_, ?_, rfl, rfl⟩ <;>
    simp [crop_block_step, hb, bbox_from_xywh]

/-- Closed witness for `crop_empty_bin_skipped_debug`. -/
theorem crop_empty_bin_skipped_debug_witness :
    (crop_block_step 2
        { minX := 50, minY := 60, maxX := 1, maxY := 2, imageVar := none, logs := [] }
        { x := 1, y := 2, w := 3, h := 4, index := 7, binBbox := none,
          imgW := 3, imgH := 4 }).minX = 50 ∧
    cropLogLevel (CropLog.ignoreEmptyBin ("region" ++ pad4 7)) = LogLevel.debug := by
  have h := crop_empty_bin_skipped_debug 2
    { minX := 50, minY := 60, maxX := 1, maxY := 2, imageVar := none, logs := [] }
    { x := 1, y := 2, w := 3, h := 4, index := 7, binBbox := none, imgW := 3, imgH := 4 }
    [] rfl
  exact ⟨h.1, h.2.2.2.2.2.1⟩

/-- **C2**: each text line added by the line segmentation processor has
as `Coords` polygon exactly the engine-reported line box with its `x`
and `y` incremented by the containing region's offsets and its width and
height unchanged; moreover such a translation of the box translates each
polygon point by the same offsets. -/
theorem segment_line_coords_translated (params : SegLineParams) (rdata : SegLineRegionData)
    (region : RegionT) :
    (segment_line_region params rdata region).1.lines =
      (if region.lines ≠ [] ∧ params.overwrite_lines = true then [] else region.lines) ++
      rdata.lines.enum.map (fun p =>
        { id := region.id ++ "_line" ++ pad4 p.1
          coords := { points := points_from_xywh ⟨p.2.x + rdata.offX, p.2.y + rdata.offY, p.2.w, p.2.h⟩ } }) ∧
    ∀ (dx dy : Int) (b : XYWH),
      points_from_xywh { x := b.x + dx, y := b.y + dy, w := b.w, h := b.h } =
        (points_from_xywh b).map (fun q => (q.1 + dx, q.2 + dy)) := by
  constructor
  · by_cases h1 : region.lines = []
    · simp only [segment_line_region, h1]
      simp
    · by_cases h2 : params.overwrite_lines = true
      · simp only [segment_line_region, if_pos h1, h2]
        simp [h1]
      · simp only [segment_line_region, h2]
        simp [h1, h2]
  · intro dx dy b
    simp [points_from_xywh, Prod.ext_iff]
    omega

/-- **C1**: when, after filtering the detected blocks, no valid page
extent was found (`min_x < max_x and min_y < max_y` fails), the crop
processor logs an error-level event and continues: the file is processed
without raising, no `Border` and no cropped `AlternativeImage` is added,
no image file is saved, yet the output PAGE file is still produced
(serialising the resulting document into the output file group), and the
file loop continues with the subsequent input files. -/
theorem crop_no_valid_extent_continues
    (params : CropParams) (gIn gOut : String) (files : List CropInput)
    (n k : Nat) (iv : Option (Int × Int)) (inp : CropInput)
    (logsR : List CropLog) (stf : CropLoopState)
    (hn : files[n]? = some inp)
    (hreg : crop_regions_check inp.pcgts.page.textRegions iv = Except.ok logsR)
    (hstf : crop_detect (crop_zoom inp.info) inp.imageW inp.imageH iv inp.blocks = stf)
    (hext : ¬(stf.minX < stf.maxX ∧ stf.minY < stf.maxY)) :
    ∃ out,
      crop_process_file params gIn gOut n iv inp = Except.ok (out, stf.imageVar) ∧
      out.pcgtsOut.page.border = inp.pcgts.page.border ∧
      out.pcgtsOut.page.altImages = inp.pcgts.page.altImages ∧
      out.savedImages = [] ∧
      CropLog.noValidExtent (inp.pageId.getD inp.ID) ∈ out.logs ∧
      cropLogLevel (CropLog.noValidExtent (inp.pageId.getD inp.ID)) = LogLevel.error ∧
      out.pageFile.content = out.pcgtsOut ∧
      out.pageFile.fileGrp = gOut ∧
      out.pageFile.mimetype = MIMETYPE_PAGE ∧
      proc_loop (crop_step params gIn gOut files) n iv (k + 1) =
        (out :: (proc_loop (crop_step params gIn gOut files) (n + 1) stf.imageVar k).1,
         RunEvent.fileStart n :: (proc_loop (crop_step params gIn gOut files) (n + 1) stf.imageVar k).2.1,
         (proc_loop (crop_step params gIn gOut files) (n + 1) stf.imageVar k).2.2) := by
  have hcp : crop_process_file params gIn gOut n iv inp =
      Except.ok
        (crop_finish params gIn gOut n inp
          { inp.pcgts with metadataItems := inp.pcgts.metadataItems ++ [crop_metadata_item params] }
          ([CropLog.inputFile n (inp.pageId.getD inp.ID)] ++
            (match inp.pcgts.page.border with
             | some bd =>
               let (l, t, r, bo) := bbox_from_points bd.coords.points
               [CropLog.overwriteBorder l t r bo]
             | none => []) ++ logsR ++ [CropLog.croppingDebug]) stf, stf.imageVar) := by
    simp only [crop_process_file, hstf]
    rw [show ({ inp.pcgts with metadataItems := inp.pcgts.metadataItems ++ [crop_metadata_item params] } : PcgtsT).page = inp.pcgts.page from rfl]
    rw [hreg]
  have hloop := proc_loop_ok_cons (crop_step params gIn gOut files) n iv k _ _
    (by rw [crop_step, hn]; exact hcp)
  refine ⟨_, hcp, ?_, ?_, ?_, ?_, ?_, ?_, ?_, ?_, hloop⟩ <;>
    first
      | rfl
      | simp [crop_finish, if_neg hext]

/-- Closed witness for `crop_no_valid_extent_continues`. -/
theorem crop_no_valid_extent_continues_witness :
    ∃ out, crop_process_file { padding := 5 } "GRPA" "GRPB" 0 none cInpEmpty = Except.ok (out, none) ∧
      CropLog.noValidExtent "p1" ∈ out.logs ∧
      out.pcgtsOut.page.border = none := by
  obtain ⟨out, h1, h2, h3, h4, h5, h6, h7, h8, h9, h10⟩ :=
    crop_no_valid_extent_continues { padding := 5 } "GRPA" "GRPB" [cInpEmpty] 0 0 none cInpEmpty
      [] { minX := 100, minY := 100, maxX := 0, maxY := 0, imageVar := none, logs := [] }
      rfl rfl rfl (by decide)
  exact ⟨out, h1, h5, by rw [h2]; rfl⟩

/-- Helper: with a `NaN` orientation confidence the first assertion of
the OSD branch fires. -/
theorem deskew_osd_error_orient (seg : SegView) (c : String) (osr : OSResult)
    (h1 : osr.orient_conf.isNan = true) :
    deskew_osd_stage seg c (some osr) =
      Except.error "AssertionError: orientation detection failed" := by
  simp [deskew_osd_stage, h1]

/-- Helper: with a well-defined orientation confidence but a `NaN`
script confidence the second assertion of the OSD branch fires. -/
theorem deskew_osd_error_script (seg : SegView) (c : String) (osr : OSResult)
    (h1 : osr.orient_conf.isNan = false) (h2 : osr.script_conf.isNan = true) :
    deskew_osd_stage seg c (some osr) =
      Except.error "AssertionError: script detection failed" := by
  simp only [deskew_osd_stage, h1, Bool.false_eq_true, if_false]
  repeat' split
  all_goals simp_all

/-- Helper: the OSD branch succeeds when no confidence is `NaN` (also
when there is no OSD result at all). -/
theorem deskew_osd_stage_isOk (seg : SegView) (c : String) (osrOpt : Option OSResult)
    (hok : ∀ osr, osrOpt = some osr →
      osr.orient_conf.isNan = false ∧ osr.script_conf.isNan = false) :
    ∃ r, deskew_osd_stage seg c osrOpt = Except.ok r := by
  cases osrOpt with
  | none => exact ⟨_, rfl⟩
  | some osr =>
    obtain ⟨h1, h2⟩ := hok osr rfl
    simp only [deskew_osd_stage, h1, h2, Bool.false_eq_true, if_false]
    repeat' split
    all_goals exact ⟨_, rfl⟩

/-- Helper: a successful OSD branch only ever appends a comma-led
annotation to `comments` and never touches the segment's alternative
images or kind. -/
theorem deskew_osd_stage_ok_shape (seg : SegView) (c : String) (osrOpt : Option OSResult)
    (a : Rat) (c2 : String) (s2 : SegView) (lg : List DeskewLog)
    (h : deskew_osd_stage seg c osrOpt = Except.ok (a, c2, s2, lg)) :
    (∃ suf, c2 = c ++ suf ∧ (suf = "" ∨ suf.data.head? = some ',')) ∧
    s2.altImages = seg.altImages ∧ s2.kind = seg.kind := by
  cases osrOpt with
  | none =>
    have hn : deskew_osd_stage seg c none =
        Except.ok (0, c, seg, [DeskewLog.noOsdResult]) := rfl
    rw [hn] at h
    injection h with h2
    injection h2 with ha h3
    injection h3 with hc2 h4
    injection h4 with hs2 hlg
    subst hc2; subst hs2
    exact ⟨⟨"", (String.append_empty c).symm, Or.inl rfl⟩, rfl, rfl⟩
  | some osr =>
    simp only [deskew_osd_stage] at h
    repeat' split at h
    all_goals first
      | exact Except.noConfusion h
      | (simp only [Except.ok.injEq, Prod.mk.injEq] at h
         obtain ⟨ha, hc2, hs2, hlg⟩ := h
         subst hc2; subst hs2
         refine ⟨?_, rfl, rfl⟩
         first
           | exact ⟨"", (String.append_empty c).symm, Or.inl rfl⟩
           | exact ⟨",rotated-" ++ toString osr.orient_deg,
               String.append_assoc c ",rotated-" (toString osr.orient_deg),
               Or.inr (by rw [String.data_append]; rfl)⟩)

/-- Helper: the layout branch only ever appends a comma-led annotation
to `comments`. -/
theorem deskew_layout_comments_shape (seg : SegView) (c : String) (angle : Rat)
    (lyOpt : Option TessLayout) :
    ∃ suf, (deskew_layout_stage seg c angle lyOpt).1 = c ++ suf ∧
      (suf = "" ∨ suf.data.head? = some ',') := by
  cases lyOpt with
  | none => exact ⟨"", (String.append_empty c).symm, Or.inl rfl⟩
  | some ly =>
    simp only [deskew_layout_stage]
    by_cases hd : ratTrunc ly.deskew_deg ≠ 0
    · rw [if_pos hd]
      exact ⟨",deskewed", rfl, Or.inr rfl⟩
    · rw [if_neg hd]
      exact ⟨"", (String.append_empty c).symm, Or.inl rfl⟩

/-- Helper: the layout branch never touches the segment's alternative
images. -/
theorem deskew_layout_altImages (seg : SegView) (c : String) (angle : Rat)
    (lyOpt : Option TessLayout) :
    (deskew_layout_stage seg c angle lyOpt).2.1.altImages = seg.altImages := by
  cases lyOpt with
  | none => rfl
  | some ly =>
    simp only [deskew_layout_stage]
    repeat' split
    all_goals rfl

/-- Helper: the layout branch never changes the segment's kind. -/
theorem deskew_layout_kind (seg : SegView) (c : String) (angle : Rat)
    (lyOpt : Option TessLayout) :
    (deskew_layout_stage seg c angle lyOpt).2.1.kind = seg.kind := by
  cases lyOpt with
  | none => rfl
  | some ly =>
    simp only [deskew_layout_stage]
    repeat' split
    all_goals rfl

/-- Helper: a string of the form `"cropped" ++ t` has first character
`'c'`. -/
theorem cropped_prefix_head (s t : String) (h : s = "cropped" ++ t) :
    s.data.head? = some 'c' := by
  subst h
  rw [String.data_append]
  rfl

/-- Helper: shape of a successful `_process_segment`: exactly one
`AlternativeImage` is appended, referencing the saved image file, whose
comments are the initial comments plus comma-led annotations; the
segment's kind is unchanged. -/
theorem deskew_process_segment_ok_shape (seg : SegView) (xywh : XYWH) (eng : SegEngine)
    (fid : String) (r : SegView × List DeskewLog)
    (h : deskew_process_segment seg xywh eng fid = Except.ok r) :
    ∃ alt suf, r.1.altImages = seg.altImages ++ [alt] ∧
      alt.filename = save_image_file fid "OCR-D-IMG-DESKEW" ∧
      alt.comments = deskew_initial_comments seg.kind xywh ++ suf ∧
      (suf = "" ∨ suf.data.head? = some ',') ∧
      r.1.kind = seg.kind := by
  unfold deskew_process_segment at h
  dsimp only [] at h
  rcases hstage : deskew_osd_stage seg (deskew_initial_comments seg.kind xywh) eng.osr with e
    | ⟨a, c1, s1, lg1⟩
  · rw [hstage] at h
    exact Except.noConfusion h
  · rw [hstage] at h
    dsimp only [] at h
    obtain ⟨⟨suf1, hc1, hsuf1⟩, halt1, hkind1⟩ :=
      deskew_osd_stage_ok_shape seg (deskew_initial_comments seg.kind xywh) eng.osr a c1 s1 lg1 hstage
    rcases hL : deskew_layout_stage s1 c1 a eng.layout with ⟨c2, s2, lg2⟩
    rw [hL] at h
    obtain ⟨suf2, hc2', hsuf2⟩ := deskew_layout_comments_shape s1 c1 a eng.layout
    rw [hL] at hc2'
    have halt2 := deskew_layout_altImages s1 c1 a eng.layout
    rw [hL] at halt2
    have hkind2 := deskew_layout_kind s1 c1 a eng.layout
    rw [hL] at hkind2
    injection h with h2
    subst h2
    have halt2p : s2.altImages = s1.altImages := halt2
    have hkind2p : s2.kind = s1.kind := hkind2
    have hc2p : c2 = c1 ++ suf2 := hc2'
    refine ⟨{ filename := save_image_file fid "OCR-D-IMG-DESKEW", comments := c2 },
      suf1 ++ suf2, ?_, rfl, ?_, ?_, ?_⟩
    · rw [show s2.altImages = seg.altImages from halt2p.trans halt1]
    · rw [hc2p, hc1, String.append_assoc]
    · rcases hsuf1 with h1 | h1
      · subst h1
        rcases hsuf2 with h2 | h2
        · subst h2
          exact Or.inl rfl
        · refine Or.inr ?_
          rw [String.data_append]
          simpa using h2
      · refine Or.inr ?_
        rw [String.data_append]
        rcases hd : suf1.data with _ | ⟨ch, tl⟩
        · rw [hd] at h1
          exact absurd h1 (by simp)
        · rw [hd] at h1
          simp only [List.head?_cons, Option.some.injEq] at h1
          exact congrArg some h1
    · exact hkind2p.trans hkind1

/-- Helper: `_process_segment` succeeds whenever no confidence of an
OSD result is `NaN`. -/
theorem deskew_process_segment_isOk (seg : SegView) (xywh : XYWH) (eng : SegEngine)
    (fid : String)
    (hok : ∀ osr, eng.osr = some osr →
      osr.orient_conf.isNan = false ∧ osr.script_conf.isNan = false) :
    ∃ r, deskew_process_segment seg xywh eng fid = Except.ok r := by
  unfold deskew_process_segment
  dsimp only []
  obtain ⟨r0, hr0⟩ :=
    deskew_osd_stage_isOk seg (deskew_initial_comments seg.kind xywh) eng.osr hok
  obtain ⟨a, c1, s1, lg1⟩ := r0
  rw [hr0]
  dsimp only []
  exact ⟨_, rfl⟩

/-- Helper: `_process_segment` raises the orientation assertion. -/
theorem deskew_process_segment_err_orient (seg : SegView) (xywh : XYWH) (eng : SegEngine)
    (fid : String) (osr : OSResult) (hosr : eng.osr = some osr)
    (h1 : osr.orient_conf.isNan = true) :
    deskew_process_segment seg xywh eng fid =
      Except.error "AssertionError: orientation detection failed" := by
  unfold deskew_process_segment
  dsimp only []
  rw [hosr, deskew_osd_error_orient _ _ _ h1]

/-- Helper: `_process_segment` raises the script assertion. -/
theorem deskew_process_segment_err_script (seg : SegView) (xywh : XYWH) (eng : SegEngine)
    (fid : String) (osr : OSResult) (hosr : eng.osr = some osr)
    (h1 : osr.orient_conf.isNan = false) (h2 : osr.script_conf.isNan = true) :
    deskew_process_segment seg xywh eng fid =
      Except.error "AssertionError: script detection failed" := by
  unfold deskew_process_segment
  dsimp only []
  rw [hosr, deskew_osd_error_script _ _ _ h1 h2]

/-- **C4**: for a segment whose orientation-and-script detection
returned a result, `_process_segment` fails via an assertion if and only
if the orientation confidence or the script confidence is `NaN`;
conversely, with both confidences well-defined, neither assertion fires
and processing succeeds. -/
theorem deskew_assert_iff_nan (seg : SegView) (xywh : XYWH) (eng : SegEngine)
    (fid : String) (osr : OSResult) (hosr : eng.osr = some osr) :
    (∃ e, deskew_process_segment seg xywh eng fid = Except.error e) ↔
      (osr.orient_conf.isNan = true ∨ osr.script_conf.isNan = true) := by
  constructor
  · rintro ⟨e, he⟩
    by_contra hno
    rw [not_or] at hno
    obtain ⟨hn1, hn2⟩ := hno
    rw [Bool.not_eq_true] at hn1 hn2
    obtain ⟨r, hr⟩ := deskew_process_segment_isOk seg xywh eng fid
      (fun o ho => by rw [hosr] at ho; cases ho; exact ⟨hn1, hn2⟩)
    rw [hr] at he
    exact Except.noConfusion he
  · rintro (h | h)
    · exact ⟨_, deskew_process_segment_err_orient seg xywh eng fid osr hosr h⟩
    · by_cases h1 : osr.orient_conf.isNan = true
      · exact ⟨_, deskew_process_segment_err_orient seg xywh eng fid osr hosr h1⟩
      · rw [Bool.not_eq_true] at h1
        exact ⟨_, deskew_process_segment_err_script seg xywh eng fid osr hosr h1 h⟩

/-- Closed witness for `deskew_assert_iff_nan`. -/
theorem deskew_assert_iff_nan_witness :
    ∃ e, deskew_process_segment dView0 ⟨0, 0, 5, 5⟩ dEngNan "F" = Except.error e :=
  (deskew_assert_iff_nan dView0 ⟨0, 0, 5, 5⟩ dEngNan "F" _ rfl).mpr (Or.inl rfl)

/-- **C10**: whenever `_process_segment` is not interrupted by a failed
detection assertion (in particular regardless of whether OSD or layout
analysis return a result), exactly one `AlternativeImage` referencing
the newly saved image file is appended to the segment; its comments
start with `"cropped"` (here: have `"cropped"` as a prefix) exactly when
the segment is a region or a page with a nonzero x or y offset, and the
initial comments value is the empty string otherwise. -/
theorem deskew_alt_image_comments (seg : SegView) (xywh : XYWH) (eng : SegEngine)
    (fid : String)
    (hok : ∀ osr, eng.osr = some osr →
      osr.orient_conf.isNan = false ∧ osr.script_conf.isNan = false) :
    ∃ r alt, deskew_process_segment seg xywh eng fid = Except.ok r ∧
      r.1.altImages = seg.altImages ++ [alt] ∧
      alt.filename = save_image_file fid "OCR-D-IMG-DESKEW" ∧
      ((∃ t, alt.comments = "cropped" ++ t) ↔
        ¬(seg.kind = SegKind.pageK ∧ xywh.x = 0 ∧ xywh.y = 0)) ∧
      deskew_initial_comments seg.kind xywh =
        (if seg.kind = SegKind.pageK ∧ xywh.x = 0 ∧ xywh.y = 0 then "" else "cropped") := by
  obtain ⟨r, hr⟩ := deskew_process_segment_isOk seg xywh eng fid hok
  obtain ⟨alt, suf, h1, h2, h3, h4, h5⟩ := deskew_process_segment_ok_shape seg xywh eng fid r hr
  refine ⟨r, alt, hr, h1, h2, ?_, rfl⟩
  by_cases hc : seg.kind = SegKind.pageK ∧ xywh.x = 0 ∧ xywh.y = 0
  · have hinit : deskew_initial_comments seg.kind xywh = "" := by
      simp only [deskew_initial_comments, if_pos hc]
    rw [hinit, String.empty_append] at h3
    constructor
    · rintro ⟨t, ht⟩
      exfalso
      have hhead := cropped_prefix_head alt.comments t ht
      rw [h3] at hhead
      rcases h4 with h4 | h4
      · subst h4
        exact absurd hhead (by decide)
      · rw [h4] at hhead
        exact absurd hhead (by decide)
    · intro hcon
      exact absurd hc hcon
  · have hinit : deskew_initial_comments seg.kind xywh = "cropped" := by
      simp only [deskew_initial_comments, if_neg hc]
    rw [hinit] at h3
    exact ⟨fun _ => hc, fun _ => ⟨suf, h3⟩⟩

/-- Closed witness for `deskew_alt_image_comments`. -/
theorem deskew_alt_image_comments_witness :
    ∃ r alt, deskew_process_segment dView0 ⟨0, 0, 5, 5⟩ dEngOk "F" = Except.ok r ∧
      r.1.altImages = dView0.altImages ++ [alt] ∧
      (∃ t, alt.comments = "cropped" ++ t) := by
  obtain ⟨r, alt, h1, h2, h3, h4, h5⟩ :=
    deskew_alt_image_comments dView0 ⟨0, 0, 5, 5⟩ dEngOk "F"
      (fun osr h => by injection h with h2; rw [← h2]; exact ⟨rfl, rfl⟩)
  exact ⟨r, alt, h1, h2, h4.mpr (by decide)⟩

/-- Helper: one component-loop step keeps the running extent within the
page image, given an in-bounds block. -/
theorem crop_block_step_bounds (zoom : Rat) (W H : Int) (st : CropLoopState) (b : CropBlock)
    (h1 : 0 ≤ st.minX) (h2 : st.maxX ≤ W) (h3 : 0 ≤ st.minY) (h4 : st.maxY ≤ H)
    (hb : 0 ≤ b.x ∧ 0 ≤ b.y ∧ b.x + b.w ≤ W ∧ b.y + b.h ≤ H) :
    0 ≤ (crop_block_step zoom st b).minX ∧ (crop_block_step zoom st b).maxX ≤ W ∧
    0 ≤ (crop_block_step zoom st b).minY ∧ (crop_block_step zoom st b).maxY ≤ H := by
  obtain ⟨hx, hy, hxw, hyh⟩ := hb
  simp only [crop_block_step, bbox_from_xywh]
  repeat' split
  all_goals first
    | exact ⟨h1, h2, h3, h4⟩
    | exact ⟨le_min h1 hx, max_le h2 hxw, le_min h3 hy, max_le h4 hyh⟩

/-- Helper: the component loop keeps the running extent within the page
image. -/
theorem crop_foldl_bounds (zoom : Rat) (W H : Int) :
    ∀ (blocks : List CropBlock) (st : CropLoopState),
      (∀ b ∈ blocks, 0 ≤ b.x ∧ 0 ≤ b.y ∧ b.x + b.w ≤ W ∧ b.y + b.h ≤ H) →
      0 ≤ st.minX → st.maxX ≤ W → 0 ≤ st.minY → st.maxY ≤ H →
      0 ≤ (blocks.foldl (crop_block_step zoom) st).minX ∧
      (blocks.foldl (crop_block_step zoom) st).maxX ≤ W ∧
      0 ≤ (blocks.foldl (crop_block_step zoom) st).minY ∧
      (blocks.foldl (crop_block_step zoom) st).maxY ≤ H
  | [], st, _, h1, h2, h3, h4 => ⟨h1, h2, h3, h4⟩
  | b :: bs, st, hb, h1, h2, h3, h4 => by
    have hs := crop_block_step_bounds zoom W H st b h1 h2 h3 h4 (hb b (by simp))
    exact crop_foldl_bounds zoom W H bs (crop_block_step zoom st b)
      (fun x hx => hb x (by simp [hx])) hs.1 hs.2.1 hs.2.2.1 hs.2.2.2

/-- Helper: the detected extent lies within the page image when all
blocks do. -/
theorem crop_detect_bounds (zoom : Rat) (W H : Int) (iv : Option (Int × Int))
    (blocks : List CropBlock) (hW : 0 ≤ W) (hH : 0 ≤ H)
    (hb : ∀ b ∈ blocks, 0 ≤ b.x ∧ 0 ≤ b.y ∧ b.x + b.w ≤ W ∧ b.y + b.h ≤ H) :
    0 ≤ (crop_detect zoom W H iv blocks).minX ∧
    (crop_detect zoom W H iv blocks).maxX ≤ W ∧
    0 ≤ (crop_detect zoom W H iv blocks).minY ∧
    (crop_detect zoom W H iv blocks).maxY ≤ H := by
  unfold crop_detect
  exact crop_foldl_bounds zoom W H blocks _ hb hW hW hH hH

/-- **C9**: whenever the crop processor annotates a `Border` (a valid
extent was found), assuming a nonnegative padding and all detected
blocks within the page image, the padded border rectangle is
non-degenerate and lies within the page image
(`0 <= min_x < max_x <= width`, likewise for y), and the saved cropped
`AlternativeImage` is the page image cropped to exactly that
rectangle. -/
theorem crop_border_within_image
    (params : CropParams) (gIn gOut : String) (n : Nat) (iv : Option (Int × Int))
    (inp : CropInput) (logsR : List CropLog) (stf : CropLoopState)
    (hpad : 0 ≤ params.padding) (hW : 0 ≤ inp.imageW) (hH : 0 ≤ inp.imageH)
    (hb : ∀ b ∈ inp.blocks, 0 ≤ b.x ∧ 0 ≤ b.y ∧ b.x + b.w ≤ inp.imageW ∧ b.y + b.h ≤ inp.imageH)
    (hreg : crop_regions_check inp.pcgts.page.textRegions iv = Except.ok logsR)
    (hstf : crop_detect (crop_zoom inp.info) inp.imageW inp.imageH iv inp.blocks = stf)
    (hvalid : stf.minX < stf.maxX ∧ stf.minY < stf.maxY) :
    ∃ out mnx mny mxx mxy ipath,
      crop_process_file params gIn gOut n iv inp = Except.ok (out, stf.imageVar) ∧
      0 ≤ mnx ∧ mnx < mxx ∧ mxx ≤ inp.imageW ∧
      0 ≤ mny ∧ mny < mxy ∧ mxy ≤ inp.imageH ∧
      out.pcgtsOut.page.border =
        some { coords := { points := points_from_bbox mnx mny mxx mxy } } ∧
      out.savedImages = [{ path := ipath, cropBox := some (mnx, mny, mxx, mxy) }] ∧
      out.pcgtsOut.page.altImages =
        inp.pcgts.page.altImages ++ [{ filename := ipath, comments := "cropped" }] := by
  have hcp : crop_process_file params gIn gOut n iv inp =
      Except.ok
        (crop_finish params gIn gOut n inp
          { inp.pcgts with metadataItems := inp.pcgts.metadataItems ++ [crop_metadata_item params] }
          ([CropLog.inputFile n (inp.pageId.getD inp.ID)] ++
            (match inp.pcgts.page.border with
             | some bd =>
               let (l, t, r, bo) := bbox_from_points bd.coords.points
               [CropLog.overwriteBorder l t r bo]
             | none => []) ++ logsR ++ [CropLog.croppingDebug]) stf, stf.imageVar) := by
    simp only [crop_process_file, hstf]
    rw [show ({ inp.pcgts with metadataItems := inp.pcgts.metadataItems ++ [crop_metadata_item params] } : PcgtsT).page = inp.pcgts.page from rfl]
    rw [hreg]
  have hbounds := crop_detect_bounds (crop_zoom inp.info) inp.imageW inp.imageH iv inp.blocks hW hH hb
  rw [hstf] at hbounds
  obtain ⟨hb1, hb2, hb3, hb4⟩ := hbounds
  obtain ⟨hv1, hv2⟩ := hvalid
  refine ⟨_, max (stf.minX - params.padding) 0, max (stf.minY - params.padding) 0,
    min (stf.maxX + params.padding) inp.imageW, min (stf.maxY + params.padding) inp.imageH,
    save_image_file
      (if inp.ID.replace gIn "OCR-D-IMG-CROP" = inp.ID then concat_padded "OCR-D-IMG-CROP" n
       else inp.ID.replace gIn "OCR-D-IMG-CROP") "OCR-D-IMG-CROP",
    hcp, ?_, ?_, ?_, ?_, ?_, ?_, ?_, ?_, ?_⟩
  · omega
  · omega
  · omega
  · omega
  · omega
  · omega
  · simp [crop_finish, hv1, hv2]
  · simp [crop_finish, hv1, hv2]
  · simp [crop_finish, hv1, hv2]

/-- Closed witness for `crop_border_within_image`. -/
theorem crop_border_within_image_witness :
    ∃ out mnx mny mxx mxy ipath,
      crop_process_file { padding := 5 } "GRPA" "GRPB" 0 none cInpBlockOnly =
        Except.ok (out, some (50, 40)) ∧
      0 ≤ mnx ∧ mnx < mxx ∧ mxx ≤ cInpBlockOnly.imageW ∧
      0 ≤ mny ∧ mny < mxy ∧ mxy ≤ cInpBlockOnly.imageH ∧
      out.savedImages = [{ path := ipath, cropBox := some (mnx, mny, mxx, mxy) }] := by
  obtain ⟨out, mnx, mny, mxx, mxy, ipath, h1, h2, h3, h4, h5, h6, h7, h8, h9, h10⟩ :=
    crop_border_within_image { padding := 5 } "GRPA" "GRPB" 0 none cInpBlockOnly []
      { minX := 10, minY := 10, maxX := 60, maxY := 50, imageVar := some (50, 40),
        logs := [CropLog.detectedRegion "region0000" 10 60 10 50,
                 CropLog.updatedBorder 10 60 10 50] }
      (by decide) (by decide) (by decide) (by decide) rfl
      (by norm_num [crop_detect, crop_block_step, cInpBlockOnly, cBlockBig,
            bbox_from_xywh, pad4, crop_zoom, crop_dpi]
          decide)
      (by decide)
  exact ⟨out, mnx, mny, mxx, mxy, ipath, h1, h2, h3, h4, h5, h6, h7, h9⟩

/-- **C8 counterexample**: in a run whose first file has no
`TextRegion` but one detected component (which binds the Python name
`image`), a second input file that does contain a `TextRegion` is
processed *without* any failure — the run completes with two output
files — contradicting the claim that the crop processor fails on every
input file with a pre-existing `TextRegion`. -/
theorem crop_region_stale_image_no_failure :
    cInp8b.pcgts.page.textRegions ≠ [] ∧
    (crop_run { padding := 5 } "GRPA" "GRPB" [cInp8a, cInp8b]).2.2 = none ∧
    (crop_run { padding := 5 } "GRPA" "GRPB" [cInp8a, cInp8b]).1.length = 2 := by
  refine ⟨by decide, ?_, ?_⟩ <;> decide

/-- **C8 (amended)**: for an input file whose PAGE document contains at
least one `TextRegion`, *if the name `image` is still unbound* (no
earlier component of the run bound it), `process` fails with an
unhandled `NameError` before computing any border, and the run stops:
no output file is produced for that file or any later one.  If a stale
binding exists, processing instead succeeds. -/
theorem crop_region_unbound_image_fails
    (params : CropParams) (gIn gOut : String) (files : List CropInput)
    (n k : Nat) (inp : CropInput)
    (hn : files[n]? = some inp)
    (hreg : inp.pcgts.page.textRegions ≠ []) :
    crop_process_file params gIn gOut n none inp =
      Except.error "NameError: name image is not defined" ∧
    proc_loop (crop_step params gIn gOut files) n none (k + 1) =
      ([], [RunEvent.fileStart n], some "NameError: name image is not defined") ∧
    ∀ iwh : Int × Int, ∃ r, crop_process_file params gIn gOut n (some iwh) inp = Except.ok r := by
  have herr : crop_regions_check inp.pcgts.page.textRegions none =
      Except.error "NameError: name image is not defined" := by
    unfold crop_regions_check
    rw [if_neg (by simp [List.isEmpty_iff, hreg])]
  have hfail : crop_process_file params gIn gOut n none inp =
      Except.error "NameError: name image is not defined" := by
    simp only [crop_process_file]
    rw [show ({ inp.pcgts with metadataItems := inp.pcgts.metadataItems ++ [crop_metadata_item params] } : PcgtsT).page = inp.pcgts.page from rfl]
    rw [herr]
  refine ⟨hfail, ?_, ?_⟩
  · exact proc_loop_error_stops _ n none k _ (by rw [crop_step, hn]; exact hfail)
  · intro iwh
    obtain ⟨lg, hlg⟩ : ∃ lg, crop_regions_check inp.pcgts.page.textRegions (some iwh) =
        Except.ok lg := by
      unfold crop_regions_check
      rw [if_neg (by simp [List.isEmpty_iff, hreg])]
      exact ⟨_, rfl⟩
    simp only [crop_process_file]
    rw [show ({ inp.pcgts with metadataItems := inp.pcgts.metadataItems ++ [crop_metadata_item params] } : PcgtsT).page = inp.pcgts.page from rfl]
    rw [hlg]
    exact ⟨_, rfl⟩

/-- Closed witness for `crop_region_unbound_image_fails`. -/
theorem crop_region_unbound_image_fails_witness :
    crop_process_file { padding := 5 } "GRPA" "GRPB" 0 none cInp8b =
      Except.error "NameError: name image is not defined" ∧
    proc_loop (crop_step { padding := 5 } "GRPA" "GRPB" [cInp8b]) 0 none 1 =
      ([], [RunEvent.fileStart 0], some "NameError: name image is not defined") := by
  have h := crop_region_unbound_image_fails { padding := 5 } "GRPA" "GRPB" [cInp8b] 0 0 cInp8b
    rfl (by decide)
  exact ⟨h.1, h.2.1⟩

/-- Helper: the file loop handles a prefix of the input files in order,
and all of them when no file raised. -/
theorem proc_loop_trace_shape {σ ω : Type} (step : Nat → σ → Except String (ω × σ)) :
    ∀ (k n : Nat) (s : σ), ∃ j, j ≤ k ∧
      (proc_loop step n s k).2.1 = (List.range j).map (fun i => RunEvent.fileStart (n + i)) ∧
      ((proc_loop step n s k).2.2 = none → j = k)
  | 0, n, s => ⟨0, le_rfl, rfl, fun _ => rfl⟩
  | k+1, n, s => by
    match hstep : step n s with
    | Except.error e =>
      refine ⟨1, by omega, ?_, ?_⟩
      · rw [proc_loop_error_stops step n s k e hstep]
        rw [show List.range 1 = [0] from rfl]
        simp
      · rw [proc_loop_error_stops step n s k e hstep]
        intro h
        exact absurd h (by simp)
    | Except.ok (out, s2) =>
      obtain ⟨j, hj, htr, hab⟩ := proc_loop_trace_shape step k (n+1) s2
      refine ⟨j + 1, by omega, ?_, ?_⟩
      · rw [proc_loop_ok_cons step n s k out s2 hstep, htr, List.range_succ_eq_map]
        simp only [List.map_cons, List.map_map, Nat.add_zero, List.cons.injEq]
        refine ⟨by trivial, ?_⟩
        apply List.map_congr_left
        intro i hi
        simp [Function.comp]
        omega
      · rw [proc_loop_ok_cons step n s k out s2 hstep]
        intro h
        rw [hab h]

/-- Helper: a run's event trace is `openApi`, then the handled files in
order starting from index 0, then `closeApi` (also when the loop was
aborted, per `with`-statement semantics); without an abort every input
file appears. -/
theorem run_trace_shape {σ ω : Type} (step : Nat → σ → Except String (ω × σ))
    (s0 : σ) (numFiles : Nat) :
    ∃ j, j ≤ numFiles ∧
      (proc_run step s0 numFiles).2.1 =
        RunEvent.openApi :: ((List.range j).map RunEvent.fileStart ++ [RunEvent.closeApi]) ∧
      ((proc_run step s0 numFiles).2.2 = none → j = numFiles) := by
  obtain ⟨j, hj, htr, hab⟩ := proc_loop_trace_shape step numFiles 0 s0
  have hzero : (List.range j).map (fun i => RunEvent.fileStart (0 + i)) =
      (List.range j).map RunEvent.fileStart := by
    apply List.map_congr_left
    intro i hi
    rw [Nat.zero_add]
  have hrun1 : (proc_run step s0 numFiles).2.1 =
      RunEvent.openApi :: ((proc_loop step 0 s0 numFiles).2.1 ++ [RunEvent.closeApi]) := rfl
  have hrun2 : (proc_run step s0 numFiles).2.2 = (proc_loop step 0 s0 numFiles).2.2 := rfl
  refine ⟨j, hj, ?_, ?_⟩
  · rw [hrun1, htr, hzero]
  · intro h
    exact hab (hrun2 ▸ h)

/-- Helper: a run-shaped trace opens the engine exactly once. -/
theorem trace_count_openApi (j : Nat) :
    (RunEvent.openApi :: ((List.range j).map RunEvent.fileStart ++ [RunEvent.closeApi])).count
      RunEvent.openApi = 1 := by
  rw [List.count_cons_self, List.count_append]
  rw [List.count_eq_zero.mpr, List.count_eq_zero.mpr]
  all_goals simp

/-- **C7 counterexample**: in a two-file crop run whose first file
already contains a `TextRegion` (raising the `NameError` of C8), the
second input file is never processed, contradicting the claim that in
every run all input files are processed within the scope of the engine
instance. -/
theorem crop_run_not_all_files :
    ¬ (∀ i, i < ([cInp8b, cInpEmpty] : List CropInput).length →
        RunEvent.fileStart i ∈ (crop_run { padding := 5 } "GRPA" "GRPB" [cInp8b, cInpEmpty]).2.1) := by
  decide

/-- **C7 (amended)**: in every run of each of the three processors,
exactly one engine instance is opened, before the first input file, and
it is closed after the last handled file; the handled files are a
prefix of the input files, processed sequentially in order within the
scope of that single instance, and when no input file raises an
unhandled error, every input file is handled. -/
theorem engine_instance_scope
    (cp : CropParams) (sp : SegLineParams) (dp : DeskewParams) (gIn gOut : String)
    (cfiles : List CropInput) (sfiles : List SegLineInput) (dfiles : List DeskewInput) :
    (∃ j, j ≤ cfiles.length ∧
      (crop_run cp gIn gOut cfiles).2.1 =
        RunEvent.openApi :: ((List.range j).map RunEvent.fileStart ++ [RunEvent.closeApi]) ∧
      ((crop_run cp gIn gOut cfiles).2.2 = none → j = cfiles.length) ∧
      (crop_run cp gIn gOut cfiles).2.1.count RunEvent.openApi = 1) ∧
    (∃ j, j ≤ sfiles.length ∧
      (segment_line_run sp gIn gOut sfiles).2.1 =
        RunEvent.openApi :: ((List.range j).map RunEvent.fileStart ++ [RunEvent.closeApi]) ∧
      ((segment_line_run sp gIn gOut sfiles).2.2 = none → j = sfiles.length) ∧
      (segment_line_run sp gIn gOut sfiles).2.1.count RunEvent.openApi = 1) ∧
    (∃ j, j ≤ dfiles.length ∧
      (deskew_run dp gIn gOut dfiles).2.1 =
        RunEvent.openApi :: ((List.range j).map RunEvent.fileStart ++ [RunEvent.closeApi]) ∧
      ((deskew_run dp gIn gOut dfiles).2.2 = none → j = dfiles.length) ∧
      (deskew_run dp gIn gOut dfiles).2.1.count RunEvent.openApi = 1) := by
  refine ⟨?_, ?_, ?_⟩
  · obtain ⟨j, h1, h2, h3⟩ := run_trace_shape (crop_step cp gIn gOut cfiles) none cfiles.length
    have h2c : (crop_run cp gIn gOut cfiles).2.1 =
        RunEvent.openApi :: ((List.range j).map RunEvent.fileStart ++ [RunEvent.closeApi]) := h2
    refine ⟨j, h1, h2c, h3, ?_⟩
    rw [h2c]
    exact trace_count_openApi j
  · obtain ⟨j, h1, h2, h3⟩ := run_trace_shape (segment_line_step sp gIn gOut sfiles) () sfiles.length
    have h2c : (segment_line_run sp gIn gOut sfiles).2.1 =
        RunEvent.openApi :: ((List.range j).map RunEvent.fileStart ++ [RunEvent.closeApi]) := h2
    refine ⟨j, h1, h2c, h3, ?_⟩
    rw [h2c]
    exact trace_count_openApi j
  · obtain ⟨j, h1, h2, h3⟩ := run_trace_shape (deskew_step dp gIn gOut dfiles) () dfiles.length
    have h2c : (deskew_run dp gIn gOut dfiles).2.1 =
        RunEvent.openApi :: ((List.range j).map RunEvent.fileStart ++ [RunEvent.closeApi]) := h2
    refine ⟨j, h1, h2c, h3, ?_⟩
    rw [h2c]
    exact trace_count_openApi j

/-- Closed witness for `engine_instance_scope`. -/
theorem engine_instance_scope_witness :
    (crop_run { padding := 5 } "GRPA" "GRPB" [cInpEmpty]).2.1.count RunEvent.openApi = 1 := by
  obtain ⟨⟨j, h1, h2, h3, h4⟩, hs, hd⟩ := engine_instance_scope { padding := 5 }
    { overwrite_lines := true } { operation_level := "page" } "GRPA" "GRPB" [cInpEmpty] [] []
  exact h4

/-- Helper: `crop_finish` only sets the border and appends an
alternative image; everything else of the document is preserved. -/
theorem crop_finish_frame (params : CropParams) (gIn gOut : String) (n : Nat)
    (inp : CropInput) (pcgts1 : PcgtsT) (logsPre : List CropLog) (stf : CropLoopState) :
    (crop_finish params gIn gOut n inp pcgts1 logsPre stf).pcgtsOut.metadataItems = pcgts1.metadataItems ∧
    (crop_finish params gIn gOut n inp pcgts1 logsPre stf).pcgtsOut.page.imageFilename = pcgts1.page.imageFilename ∧
    (crop_finish params gIn gOut n inp pcgts1 logsPre stf).pcgtsOut.page.textRegions = pcgts1.page.textRegions ∧
    (crop_finish params gIn gOut n inp pcgts1 logsPre stf).pcgtsOut.page.tableRegions = pcgts1.page.tableRegions ∧
    (crop_finish params gIn gOut n inp pcgts1 logsPre stf).pcgtsOut.page.orientation = pcgts1.page.orientation ∧
    (crop_finish params gIn gOut n inp pcgts1 logsPre stf).pcgtsOut.page.primaryScript = pcgts1.page.primaryScript ∧
    (crop_finish params gIn gOut n inp pcgts1 logsPre stf).pcgtsOut.page.readingDirection = pcgts1.page.readingDirection ∧
    (crop_finish params gIn gOut n inp pcgts1 logsPre stf).pcgtsOut.page.textLineOrder = pcgts1.page.textLineOrder ∧
    (∃ tail, (crop_finish params gIn gOut n inp pcgts1 logsPre stf).pcgtsOut.page.altImages =
      pcgts1.page.altImages ++ tail) ∧
    ((crop_finish params gIn gOut n inp pcgts1 logsPre stf).pcgtsOut.page.border = pcgts1.page.border ∨
      ∃ bd, (crop_finish params gIn gOut n inp pcgts1 logsPre stf).pcgtsOut.page.border = some bd) := by
  simp only [crop_finish]
  split
  all_goals
    refine ⟨by trivial, by trivial, by trivial, by trivial, by trivial, by trivial,
      by trivial, by trivial, ?_, ?_⟩
  · exact ⟨_, rfl⟩
  · exact Or.inr ⟨_, rfl⟩
  · exact ⟨[], (List.append_nil _).symm⟩
  · exact Or.inl rfl

/-- Helper: frame of one successful crop file: one metadata item
appended, alternative images only appended, regions untouched, border
unchanged or replaced. -/
theorem crop_process_file_frame (params : CropParams) (gIn gOut : String) (n : Nat)
    (iv : Option (Int × Int)) (inp : CropInput) (out : CropFileOutput) (iv2 : Option (Int × Int))
    (h : crop_process_file params gIn gOut n iv inp = Except.ok (out, iv2)) :
    out.pcgtsOut.metadataItems = inp.pcgts.metadataItems ++ [crop_metadata_item params] ∧
    out.pcgtsOut.page.imageFilename = inp.pcgts.page.imageFilename ∧
    out.pcgtsOut.page.textRegions = inp.pcgts.page.textRegions ∧
    out.pcgtsOut.page.tableRegions = inp.pcgts.page.tableRegions ∧
    out.pcgtsOut.page.orientation = inp.pcgts.page.orientation ∧
    out.pcgtsOut.page.primaryScript = inp.pcgts.page.primaryScript ∧
    out.pcgtsOut.page.readingDirection = inp.pcgts.page.readingDirection ∧
    out.pcgtsOut.page.textLineOrder = inp.pcgts.page.textLineOrder ∧
    (∃ tail, out.pcgtsOut.page.altImages = inp.pcgts.page.altImages ++ tail) ∧
    (out.pcgtsOut.page.border = inp.pcgts.page.border ∨
      ∃ bd, out.pcgtsOut.page.border = some bd) := by
  simp only [crop_process_file] at h
  rcases hrg : crop_regions_check inp.pcgts.page.textRegions iv with e | logsR
  · rw [show crop_regions_check
        ({ inp.pcgts with metadataItems := inp.pcgts.metadataItems ++ [crop_metadata_item params] } : PcgtsT).page.textRegions iv =
        Except.error e from hrg] at h
    exact Except.noConfusion h
  · rw [show crop_regions_check
        ({ inp.pcgts with metadataItems := inp.pcgts.metadataItems ++ [crop_metadata_item params] } : PcgtsT).page.textRegions iv =
        Except.ok logsR from hrg] at h
    injection h with h2
    injection h2 with hout hiv
    subst hout
    exact crop_finish_frame params gIn gOut n inp _ _ _

/-- Helper: the region loop body of the line segmentation processor
changes only the `lines` of a region, clearing them first exactly when
`overwrite_lines` is set and lines existed. -/
theorem segment_line_region_fields (params : SegLineParams) (rdata : SegLineRegionData)
    (region : RegionT) :
    (segment_line_region params rdata region).1.id = region.id ∧
    (segment_line_region params rdata region).1.coords = region.coords ∧
    (segment_line_region params rdata region).1.orientation = region.orientation ∧
    (segment_line_region params rdata region).1.primaryScript = region.primaryScript ∧
    (segment_line_region params rdata region).1.readingDirection = region.readingDirection ∧
    (segment_line_region params rdata region).1.textLineOrder = region.textLineOrder ∧
    (segment_line_region params rdata region).1.altImages = region.altImages ∧
    ∃ newLines, (segment_line_region params rdata region).1.lines =
      (if region.lines ≠ [] ∧ params.overwrite_lines = true then [] else region.lines) ++ newLines := by
  simp only [segment_line_region]
  by_cases h1 : region.lines ≠ []
  · by_cases h2 : params.overwrite_lines = true
    · rw [if_pos h1]
      simp only [h2, if_true]
      refine ⟨by trivial, by trivial, by trivial, by trivial, by trivial, by trivial, by trivial, ?_⟩
      exact ⟨_, by rw [if_pos ⟨h1, trivial⟩]⟩
    · rw [if_pos h1]
      simp only [h2, Bool.false_eq_true, if_false]
      refine ⟨by trivial, by trivial, by trivial, by trivial, by trivial, by trivial, by trivial, ?_⟩
      exact ⟨_, by rw [if_neg (fun hc => hc.2)]⟩
  · rw [if_neg h1]
    refine ⟨by trivial, by trivial, by trivial, by trivial, by trivial, by trivial, by trivial, ?_⟩
    exact ⟨_, by rw [if_neg (fun hc => h1 hc.1)]⟩

/-- Helper: frame of one line segmentation file: one metadata item
appended, page untouched apart from the text regions, and each region
preserved apart from its lines. -/
theorem segment_line_process_file_frame (params : SegLineParams) (gIn gOut : String)
    (n : Nat) (inp : SegLineInput) :
    (segment_line_process_file params gIn gOut n inp).pcgtsOut.metadataItems =
      inp.pcgts.metadataItems ++ [segment_line_metadata_item params] ∧
    (segment_line_process_file params gIn gOut n inp).pcgtsOut.page.imageFilename =
      inp.pcgts.page.imageFilename ∧
    (segment_line_process_file params gIn gOut n inp).pcgtsOut.page.border =
      inp.pcgts.page.border ∧
    (segment_line_process_file params gIn gOut n inp).pcgtsOut.page.tableRegions =
      inp.pcgts.page.tableRegions ∧
    (segment_line_process_file params gIn gOut n inp).pcgtsOut.page.altImages =
      inp.pcgts.page.altImages ∧
    (segment_line_process_file params gIn gOut n inp).pcgtsOut.page.textRegions.length =
      inp.pcgts.page.textRegions.length ∧
    ∀ (i : Nat) (r : RegionT), inp.pcgts.page.textRegions[i]? = some r →
      ∃ r2, (segment_line_process_file params gIn gOut n inp).pcgtsOut.page.textRegions[i]? = some r2 ∧
        r2.id = r.id ∧ r2.coords = r.coords ∧ r2.orientation = r.orientation ∧
        r2.primaryScript = r.primaryScript ∧ r2.readingDirection = r.readingDirection ∧
        r2.textLineOrder = r.textLineOrder ∧ r2.altImages = r.altImages ∧
        ∃ newLines, r2.lines =
          (if r.lines ≠ [] ∧ params.overwrite_lines = true then [] else r.lines) ++ newLines := by
  refine ⟨rfl, rfl, rfl, rfl, rfl, by simp [segment_line_process_file], ?_⟩
  intro i r hr
  have hout : (segment_line_process_file params gIn gOut n inp).pcgtsOut.page.textRegions =
      (inp.pcgts.page.textRegions.enum.map
        (fun p => segment_line_region params (inp.regionData p.1) p.2)).map Prod.fst := rfl
  rw [hout, List.getElem?_map, List.getElem?_map, List.getElem?_enum, hr]
  obtain ⟨f1, f2, f3, f4, f5, f6, f7, f8⟩ :=
    segment_line_region_fields params (inp.regionData i) r
  exact ⟨_, rfl, f1, f2, f3, f4, f5, f6, f7, f8⟩

/-- Helper: the deskew region loop preserves region count, ids, coords
and lines, and only appends alternative images. -/
theorem deskew_region_list_shape (k : SegKind) (xy : Nat → XYWH) (en : Nat → SegEngine)
    (fid : String) :
    ∀ (i0 : Nat) (rs rs2 : List RegionT) (lg : List DeskewLog),
      deskew_region_list k xy en fid i0 rs = Except.ok (rs2, lg) →
      rs2.length = rs.length ∧
      ∀ (i : Nat) (r : RegionT), rs[i]? = some r → ∃ r2, rs2[i]? = some r2 ∧
        r2.id = r.id ∧ r2.coords = r.coords ∧ r2.lines = r.lines ∧
        ∃ tail, r2.altImages = r.altImages ++ tail
  | i0, [], rs2, lg, h => by
    injection h with h2
    injection h2 with ha hb
    subst ha
    exact ⟨rfl, fun i r hr => by simp at hr⟩
  | i0, r :: rs, rs2, lg, h => by
    simp only [deskew_region_list] at h
    rcases hseg : deskew_process_segment (region_view k r) (xy i0) (en i0)
        (fid ++ "_" ++ r.id) with e | ⟨v, lgr⟩
    · rw [hseg] at h
      exact Except.noConfusion h
    · rw [hseg] at h
      rcases hrec : deskew_region_list k xy en fid (i0 + 1) rs with e | ⟨rest2, lg2⟩
      · rw [hrec] at h
        exact Except.noConfusion h
      · rw [hrec] at h
        injection h with h2
        injection h2 with ha hb
        subst ha
        obtain ⟨hlen, hpt⟩ := deskew_region_list_shape k xy en fid (i0 + 1) rs rest2 lg2 hrec
        obtain ⟨alt, suf, hA, hF, hC, hS, hK⟩ := deskew_process_segment_ok_shape
          (region_view k r) (xy i0) (en i0) (fid ++ "_" ++ r.id) (v, lgr) hseg
        refine ⟨by simp [hlen], ?_⟩
        intro i rr hr
        match i with
        | 0 =>
          simp only [List.getElem?_cons_zero, Option.some.injEq] at hr
          subst hr
          exact ⟨set_region_view r v, by simp, rfl, rfl, rfl, ⟨[alt], hA⟩⟩
        | Nat.succ j =>
          obtain ⟨r2, h1, h2, h3, h4, h5⟩ := hpt j rr (by simpa using hr)
          exact ⟨r2, by simpa using h1, h2, h3, h4, h5⟩

/-- Helper: frame of one successful deskew file: one metadata item
appended, border and image reference unchanged, regions preserved up to
their orientation/script attributes, alternative images only
appended. -/
theorem deskew_process_file_frame (params : DeskewParams) (gIn gOut : String) (n : Nat)
    (inp : DeskewInput) (out : DeskewFileOutput)
    (h : deskew_process_file params gIn gOut n inp = Except.ok out) :
    out.pcgtsOut.metadataItems = inp.pcgts.metadataItems ++ [deskew_metadata_item params] ∧
    out.pcgtsOut.page.imageFilename = inp.pcgts.page.imageFilename ∧
    out.pcgtsOut.page.border = inp.pcgts.page.border ∧
    (∃ tail, out.pcgtsOut.page.altImages = inp.pcgts.page.altImages ++ tail) ∧
    out.pcgtsOut.page.textRegions.length = inp.pcgts.page.textRegions.length ∧
    out.pcgtsOut.page.tableRegions.length = inp.pcgts.page.tableRegions.length ∧
    (∀ (i : Nat) (r : RegionT), inp.pcgts.page.textRegions[i]? = some r →
      ∃ r2, out.pcgtsOut.page.textRegions[i]? = some r2 ∧
        r2.id = r.id ∧ r2.coords = r.coords ∧ r2.lines = r.lines ∧
        ∃ tail, r2.altImages = r.altImages ++ tail) ∧
    (∀ (i : Nat) (r : RegionT), inp.pcgts.page.tableRegions[i]? = some r →
      ∃ r2, out.pcgtsOut.page.tableRegions[i]? = some r2 ∧
        r2.id = r.id ∧ r2.coords = r.coords ∧ r2.lines = r.lines ∧
        ∃ tail, r2.altImages = r.altImages ++ tail) := by
  unfold deskew_process_file at h
  dsimp only [] at h
  by_cases hop : params.operation_level = "page"
  · rw [if_pos hop] at h
    rcases hseg : deskew_process_segment
        (page_view { inp.pcgts with
          metadataItems := inp.pcgts.metadataItems ++ [deskew_metadata_item params] }.page)
        inp.pageXYWH inp.pageEngine (inp.ID.replace gIn "OCR-D-IMG-DESKEW") with e | ⟨v, lg⟩
    · rw [hseg] at h
      exact Except.noConfusion h
    · rw [hseg] at h
      injection h with h2
      subst h2
      obtain ⟨alt, suf, hA, hF, hC, hS, hK⟩ := deskew_process_segment_ok_shape _ _ _ _ _ hseg
      refine ⟨rfl, rfl, rfl, ⟨[alt], hA⟩, rfl, rfl, ?_, ?_⟩
      · intro i r hr
        exact ⟨r, hr, rfl, rfl, rfl, ⟨[], (List.append_nil _).symm⟩⟩
      · intro i r hr
        exact ⟨r, hr, rfl, rfl, rfl, ⟨[], (List.append_nil _).symm⟩⟩
  · rw [if_neg hop] at h
    rcases htx : deskew_region_list SegKind.textK inp.regionXYWH inp.regionEngine
        (inp.ID.replace gIn "OCR-D-IMG-DESKEW") 0
        { inp.pcgts with
          metadataItems := inp.pcgts.metadataItems ++ [deskew_metadata_item params] }.page.textRegions
        with e | ⟨trs, lg1⟩
    · rw [htx] at h
      exact Except.noConfusion h
    · rw [htx] at h
      rcases htb : deskew_region_list SegKind.tableK inp.regionXYWH inp.regionEngine
          (inp.ID.replace gIn "OCR-D-IMG-DESKEW")
          ({ inp.pcgts with
            metadataItems := inp.pcgts.metadataItems ++ [deskew_metadata_item params] }.page.textRegions.length)
          { inp.pcgts with
            metadataItems := inp.pcgts.metadataItems ++ [deskew_metadata_item params] }.page.tableRegions
          with e | ⟨tbs, lg2⟩
      · rw [htb] at h
        exact Except.noConfusion h
      · rw [htb] at h
        injection h with h2
        subst h2
        obtain ⟨hlen1, hpt1⟩ := deskew_region_list_shape _ _ _ _ _ _ _ _ htx
        obtain ⟨hlen2, hpt2⟩ := deskew_region_list_shape _ _ _ _ _ _ _ _ htb
        exact ⟨rfl, rfl, rfl, ⟨[], (List.append_nil _).symm⟩, hlen1, hlen2, hpt1, hpt2⟩

/-- **C3 counterexample**: with `overwrite_lines` set, the line
segmentation processor *removes* the existing `TextLine` of a region —
the element present in the input document is no longer present in the
serialized output — contradicting the claim that every input element
survives unmodified. -/
theorem segment_line_removes_existing_line :
    cLine0 ∈ sRegion1.lines ∧
    (∀ r ∈ (segment_line_process_file { overwrite_lines := true } "GRPA" "GRPB" 0
        sInp3).pcgtsOut.page.textRegions, cLine0 ∉ r.lines) := by
  constructor
  · decide
  · decide

/-- **C3 (amended)**: every processor mutates the document only by
appending derived elements or setting attributes of existing elements:
metadata items and alternative images are only appended and regions are
never removed or re-identified, except that (a) the crop processor may
replace an existing `Border` with the newly computed one, (b) the line
segmentation processor clears a region's existing `TextLine` elements
exactly when `overwrite_lines` is set and the region had lines (before
appending the detected ones), and (c) the deskew processor may set the
orientation / script / reading-direction / text-line-order attributes
of existing page and region elements. -/
theorem processors_append_only_frame
    (cparams : CropParams) (sparams : SegLineParams) (dparams : DeskewParams)
    (gIn gOut : String) (n : Nat) (iv iv2 : Option (Int × Int))
    (cinp : CropInput) (cout : CropFileOutput)
    (sinp : SegLineInput) (dinp : DeskewInput) (dout : DeskewFileOutput)
    (hc : crop_process_file cparams gIn gOut n iv cinp = Except.ok (cout, iv2))
    (hd : deskew_process_file dparams gIn gOut n dinp = Except.ok dout) :
    (cout.pcgtsOut.metadataItems = cinp.pcgts.metadataItems ++ [crop_metadata_item cparams] ∧
     cout.pcgtsOut.page.imageFilename = cinp.pcgts.page.imageFilename ∧
     cout.pcgtsOut.page.textRegions = cinp.pcgts.page.textRegions ∧
     cout.pcgtsOut.page.tableRegions = cinp.pcgts.page.tableRegions ∧
     (∃ tail, cout.pcgtsOut.page.altImages = cinp.pcgts.page.altImages ++ tail) ∧
     (cout.pcgtsOut.page.border = cinp.pcgts.page.border ∨
       ∃ bd, cout.pcgtsOut.page.border = some bd)) ∧
    ((segment_line_process_file sparams gIn gOut n sinp).pcgtsOut.metadataItems =
       sinp.pcgts.metadataItems ++ [segment_line_metadata_item sparams] ∧
     (segment_line_process_file sparams gIn gOut n sinp).pcgtsOut.page.border =
       sinp.pcgts.page.border ∧
     (segment_line_process_file sparams gIn gOut n sinp).pcgtsOut.page.altImages =
       sinp.pcgts.page.altImages ∧
     (segment_line_process_file sparams gIn gOut n sinp).pcgtsOut.page.tableRegions =
       sinp.pcgts.page.tableRegions ∧
     (segment_line_process_file sparams gIn gOut n sinp).pcgtsOut.page.textRegions.length =
       sinp.pcgts.page.textRegions.length ∧
     ∀ (i : Nat) (r : RegionT), sinp.pcgts.page.textRegions[i]? = some r →
       ∃ r2, (segment_line_process_file sparams gIn gOut n
           sinp).pcgtsOut.page.textRegions[i]? = some r2 ∧
         r2.id = r.id ∧ r2.coords = r.coords ∧ r2.altImages = r.altImages ∧
         ∃ newLines, r2.lines =
           (if r.lines ≠ [] ∧ sparams.overwrite_lines = true then [] else r.lines) ++ newLines) ∧
    (dout.pcgtsOut.metadataItems = dinp.pcgts.metadataItems ++ [deskew_metadata_item dparams] ∧
     dout.pcgtsOut.page.imageFilename = dinp.pcgts.page.imageFilename ∧
     dout.pcgtsOut.page.border = dinp.pcgts.page.border ∧
     (∃ tail, dout.pcgtsOut.page.altImages = dinp.pcgts.page.altImages ++ tail) ∧
     dout.pcgtsOut.page.textRegions.length = dinp.pcgts.page.textRegions.length ∧
     dout.pcgtsOut.page.tableRegions.length = dinp.pcgts.page.tableRegions.length ∧
     (∀ (i : Nat) (r : RegionT), dinp.pcgts.page.textRegions[i]? = some r →
       ∃ r2, dout.pcgtsOut.page.textRegions[i]? = some r2 ∧
         r2.id = r.id ∧ r2.coords = r.coords ∧ r2.lines = r.lines ∧
         ∃ tail, r2.altImages = r.altImages ++ tail) ∧
     (∀ (i : Nat) (r : RegionT), dinp.pcgts.page.tableRegions[i]? = some r →
       ∃ r2, dout.pcgtsOut.page.tableRegions[i]? = some r2 ∧
         r2.id = r.id ∧ r2.coords = r.coords ∧ r2.lines = r.lines ∧
         ∃ tail, r2.altImages = r.altImages ++ tail)) := by
  obtain ⟨c1, c2, c3, c4, c5, c6, c7, c8, c9, c10⟩ :=
    crop_process_file_frame cparams gIn gOut n iv cinp cout iv2 hc
  obtain ⟨s1, s2, s3, s4, s5, s6, s7⟩ :=
    segment_line_process_file_frame sparams gIn gOut n sinp
  obtain ⟨d1, d2, d3, d4, d5, d6, d7, d8⟩ :=
    deskew_process_file_frame dparams gIn gOut n dinp dout hd
  refine ⟨⟨c1, c2, c3, c4, c9, c10⟩, ⟨s1, s3, s5, s4, s6, ?_⟩, ⟨d1, d2, d3, d4, d5, d6, d7, d8⟩⟩
  intro i r hr
  obtain ⟨r2, h1, h2, h3, h4, h5, h6, h7, h8, h9⟩ := s7 i r hr
  exact ⟨r2, h1, h2, h3, h8, h9⟩

/-- Closed witness for `processors_append_only_frame`. -/
theorem processors_append_only_frame_witness :
    ∃ cout iv2 dout,
      crop_process_file { padding := 5 } "GRPA" "GRPB" 0 none cInpEmpty =
        Except.ok (cout, iv2) ∧
      deskew_process_file { operation_level := "region" } "GRPA" "GRPB" 0 dInp0 =
        Except.ok dout ∧
      cout.pcgtsOut.page.textRegions = cInpEmpty.pcgts.page.textRegions ∧
      (segment_line_process_file { overwrite_lines := true } "GRPA" "GRPB" 0
        sInp3).pcgtsOut.page.border = sInp3.pcgts.page.border ∧
      dout.pcgtsOut.page.border = dInp0.pcgts.page.border := by
  obtain ⟨cres, hcres⟩ : ∃ res, crop_process_file { padding := 5 } "GRPA" "GRPB" 0 none cInpEmpty =
      Except.ok res := ⟨_, rfl⟩
  obtain ⟨cout, iv2⟩ := cres
  obtain ⟨dout, hdout⟩ : ∃ res, deskew_process_file { operation_level := "region" } "GRPA" "GRPB" 0 dInp0 =
      Except.ok res := ⟨_, rfl⟩
  obtain ⟨⟨c1, c2, c3, c4, c5, c6⟩, ⟨s1, s2, s3, s4, s5, s6⟩, ⟨d1, d2, d3, d4, d5, d6, d7, d8⟩⟩ :=
    processors_append_only_frame { padding := 5 } { overwrite_lines := true }
      { operation_level := "region" } "GRPA" "GRPB" 0 none iv2 cInpEmpty cout sInp3 dInp0 dout
      hcres hdout
  exact ⟨cout, iv2, dout, hcres, hdout, c3, s2, d3⟩
